import Mathlib

/-!
Verification development for the MRT-3 discrete-event train simulation
(`backend/simulation/core.py`).  The definitions below are a shallow
embedding of the simulation core: Python `datetime` values become rational
seconds-from-midnight, Python `int` becomes `Int`, Python `float`
arithmetic becomes exact rational arithmetic, object references become
integer ids into flat lists (an indexed arena), and the mutable handler
methods become pure state-transformer functions.  Each definition cites
the source location it embeds.
-/

namespace MRT3

/-- Travel directions along the line (strings `"northbound"` / `"southbound"`
in the source). -/
inductive Direction
  | northbound
  | southbound
  deriving DecidableEq, Repr

/-- `Train.change_direction` (core.py:499-501). -/
def Direction.flip : Direction → Direction
  | .northbound => .southbound
  | .southbound => .northbound

/-- Station / train service types (strings `"A"`, `"B"`, `"AB"` in the source). -/
inductive SType
  | A
  | B
  | AB
  deriving DecidableEq, Repr

/-- Trip types of a passenger demand group (core.py:137). -/
inductive TripType
  | DIRECT
  | TRANSFER
  deriving DecidableEq, Repr

/-- Status of a passenger demand group (core.py:147). -/
inductive DemandStatus
  | waitingAtOrigin
  | inTransitLeg1
  | waitingForTransfer
  | inTransitLeg2
  | completed
  deriving DecidableEq, Repr

/-- Train status strings assigned by the handlers (`train.status`;
core.py:842, 953).  The attribute does not exist until first assigned,
modelled by `unset`. -/
inductive TrainRunStatus
  | unset
  | insertion
  | active
  | inactive
  deriving DecidableEq, Repr

/-- Python `int(x)` on a nonnegative/negative rational: truncation toward
zero (used for `int(total_time)` in core.py:449 and `int(... / 60)` in
core.py:1631). -/
def pyInt (q : ℚ) : ℤ := if 0 ≤ q then ⌊q⌋ else ⌈q⌉

/-- `custom_round` (core.py:22-35): round half to even, otherwise Python 3
`round`, which on a non-halfway value returns the nearest integer (here
`round` in the non-halfway branch, where the two conventions agree). -/
def custom_round (x : ℚ) : ℤ :=
  if x = ⌊x⌋ + 1/2 then
    if Even ⌊x⌋ then ⌊x⌋ else ⌈x⌉
  else
    round x

/-- The derived headway of a service period (core.py:1635):
`custom_round(loop_time / period["TRAIN_COUNT"])` with `loop_time` already
converted to integer minutes. -/
def periodHeadway (loopMin : ℤ) (trainCount : ℕ) : ℤ :=
  custom_round ((loopMin : ℚ) / (trainCount : ℚ))

/-- A passenger demand group (`Passenger_Demand`, core.py:127-151).
`did` is the arena index standing for Python object identity (used by
`list.remove`). -/
structure Demand where
  did : ℕ
  origin_station_id : ℕ
  destination_station_id : ℕ
  transfer_station_id : Option ℕ := none
  arrival_time : ℚ
  arrival_at_transfer_time : Option ℚ := none
  departure_from_origin_time : Option ℚ := none
  departure_from_transfer_time : Option ℚ := none
  passenger_count : ℤ
  trip_type : TripType
  boarding_time : Option ℚ := none
  completion_time : Option ℚ := none
  wait_time : ℚ := 0
  travel_time : ℚ := 0
  status : DemandStatus := .waitingAtOrigin
  train_id : Option ℕ := none
  direction : Option Direction := none
  deriving DecidableEq, Repr

/-- `Passenger_Demand.calculate_wait_time` (core.py:152-162). -/
def Demand.calculateWaitTime (d : Demand) : Demand :=
  let originWait : ℚ :=
    match d.departure_from_origin_time with
    | some dep => dep - d.arrival_time
    | none => 0
  let transferWait : ℚ :=
    if d.trip_type = .TRANSFER then
      match d.departure_from_transfer_time, d.arrival_at_transfer_time with
      | some dep, some arr => dep - arr
      | _, _ => 0
    else 0
  let total := originWait + transferWait
  { d with wait_time := if 0 ≤ total then total else 0 }

/-- `Passenger_Demand.calculate_travel_time` (core.py:164-183). -/
def Demand.calculateTravelTime (d : Demand) : Demand :=
  let total : ℚ :=
    if d.trip_type = .DIRECT then
      match d.completion_time, d.boarding_time with
      | some c, some b => c - b
      | _, _ => 0
    else
      let leg1 : ℚ :=
        match d.arrival_at_transfer_time, d.boarding_time with
        | some a, some b => a - b
        | _, _ => 0
      let leg2 : ℚ :=
        match d.completion_time, d.departure_from_transfer_time with
        | some c, some dep => c - dep
        | _, _ => 0
      leg1 + leg2
  { d with travel_time := if 0 ≤ total then total else 0 }

/-- A train (`Train`, core.py:451-482).  Speeds are stored in m/s, the
constructor converting the km/h spec inputs (core.py:457-458).  Platform
and station references are by id. -/
structure Train where
  train_id : ℕ
  capacity : ℤ
  cruising_speed : ℚ
  passthrough_speed : ℚ
  accel_rate : ℚ
  decel_rate : ℚ
  current_speed : ℚ := 0
  service_type : SType := .AB
  boarded_demand : List Demand := []
  current_passenger_count : ℤ := 0
  direction : Direction := .southbound
  current_station : Option ℕ := none
  is_active : Bool := true
  arrival_time : Option ℚ := none
  last_departure_time : Option ℚ := none
  current_journey_travel_time : ℚ := 0
  run_status : TrainRunStatus := .unset
  deriving DecidableEq, Repr

/-- `Train.__init__` (core.py:452-482): km/h inputs converted to m/s, the
passthrough speed hard-coded to 20 km/h by `_initialize_trains`
(core.py:1572). -/
def mkTrain (tid : ℕ) (maxCapacity : ℤ) (maxSpeedKmh accel decel : ℚ)
    (service : SType) (curStation : Option ℕ) : Train :=
  { train_id := tid
    capacity := maxCapacity
    cruising_speed := maxSpeedKmh * (1000 / 3600)
    passthrough_speed := 20 * (1000 / 3600)
    accel_rate := accel
    decel_rate := decel
    current_speed := 0
    service_type := service
    direction := .southbound
    current_station := curStation
    is_active := true }

/-- A station (`Station`, core.py:215-228).  The two `platforms` slots and
two `tracks` handles become one field per direction; occupants and
segments are referenced by id. -/
structure Station where
  station_id : ℕ
  station_type : SType := .AB
  is_terminus : Bool := false
  waiting_demand : List Demand := []
  track_north : Option (ℕ × ℕ) := none
  track_south : Option (ℕ × ℕ) := none
  platform_north : Option ℕ := none
  platform_south : Option ℕ := none
  deriving DecidableEq, Repr

/-- `station.platforms[direction]`. -/
def Station.platform (st : Station) : Direction → Option ℕ
  | .northbound => st.platform_north
  | .southbound => st.platform_south

/-- Assignment to `station.platforms[direction]`. -/
def Station.setPlatform (st : Station) (d : Direction) (v : Option ℕ) : Station :=
  match d with
  | .northbound => { st with platform_north := v }
  | .southbound => { st with platform_south := v }

/-- `Station.get_next_segment` (core.py:335-337). -/
def Station.getNextSegment (st : Station) : Direction → Option (ℕ × ℕ)
  | .northbound => st.track_north
  | .southbound => st.track_south

/-- `Station.should_stop` (core.py:331-333). -/
def Station.shouldStop (st : Station) (t : Train) : Bool :=
  st.station_type = t.service_type || st.station_type = .AB

/-- A directed track segment (`TrackSegment`, core.py:339-365). -/
structure Segment where
  segment_id : ℕ × ℕ
  start_station_id : ℕ
  end_station_id : ℕ
  distance : ℚ
  direction : Direction
  occupied_by : Option ℕ := none
  last_entry_time : Option ℚ := none
  last_exit_time : Option ℚ := none
  next_available : Option ℚ := none
  deriving DecidableEq, Repr

/-- `TrackSegment.is_available` (core.py:367-370). -/
def Segment.isAvailable (seg : Segment) : Bool := seg.occupied_by = none

/-- `TrackSegment.enter` (core.py:372-378): admits a train only when
`occupied_by` is `None`, returning whether the entry succeeded. -/
def Segment.enter (seg : Segment) (tid : ℕ) (time : ℚ) : Bool × Segment :=
  if seg.occupied_by = none then
    (true, { seg with last_entry_time := some time, occupied_by := some tid })
  else
    (false, seg)

/-- `TrackSegment.exit` (core.py:380-386): clears `occupied_by` only when
called by the occupying train. -/
def Segment.exit (seg : Segment) (tid : ℕ) (time : ℚ) : Bool × Segment :=
  if seg.occupied_by = some tid then
    (true, { seg with last_exit_time := some time, occupied_by := none })
  else
    (false, seg)

/-- `TrackSegment.calculate_traversal_time` (core.py:388-449), as a pure
function of the train's motion parameters: returns the integer traversal
time (`int(total_time)`, truncation) together with the train's updated
`current_speed` and the exact total time.  The mutation of
`next_available` is performed by the caller in the handler embedding. -/
def calcTraversalTime (accel decel cruising passthrough v0 : ℚ)
    (stops : Bool) (L : ℚ) : ℤ × ℚ :=
  if stops then
    -- decelerate to a stop, accelerate again, cruise the remainder
    let decelTime := v0 / decel
    let decelDist := 1/2 * decel * decelTime ^ 2
    let decelDist := if decelDist > L then L else decelDist
    let remaining := L - decelDist
    let accelTime := cruising / accel
    let accelDist := 1/2 * accel * accelTime ^ 2
    let remaining := remaining - accelDist
    let cruiseTime := if remaining > 0 then remaining / cruising else 0
    let total := decelTime + accelTime + cruiseTime
    (pyInt total, 0)
  else
    -- pass through the 130 m platform zone at passthrough speed
    let zoneLength : ℚ := 130
    let decelTime := (v0 - passthrough) / decel
    let zoneTime := zoneLength / passthrough
    let accelTime := (cruising - passthrough) / accel
    let accelDist := 1/2 * accel * accelTime ^ 2
    let remaining := L - accelDist
    let cruiseTime := if remaining > 0 then remaining / cruising else 0
    let total := decelTime + zoneTime + accelTime + cruiseTime
    (pyInt total, passthrough)

/-- The board-eligibility decision of the boarding loop
(core.py:267-296): the `can_train_stop_here` gate, then condition 1
(waiting at origin, arrived by departure, same direction, train can reach
the next required stop) or condition 2 (waiting for transfer, arrived by
departure, same direction, train can reach the final destination). -/
def boardCond (schemeMap : ℕ → Option SType) (st : Station) (tr : Train)
    (depTime : ℚ) (d : Demand) : Bool :=
  let canStop := tr.service_type == st.station_type || tr.service_type == .AB
      || st.station_type == .AB
  if !canStop then false
  else if d.status == .waitingAtOrigin && decide (d.arrival_time ≤ depTime) then
    if d.direction == some tr.direction then
      let nextStop := if d.trip_type == .TRANSFER then d.transfer_station_id
                      else some d.destination_station_id
      match nextStop with
      | none => false
      | some ns =>
        match schemeMap ns with
        | none => false
        | some nst => tr.service_type == nst || tr.service_type == .AB || nst == .AB
    else false
  else if d.status == .waitingForTransfer
      && (match d.arrival_at_transfer_time with
          | some a => decide (a ≤ depTime)
          | none => false) then
    if d.direction == some tr.direction then
      match schemeMap d.destination_station_id with
      | none => false
      | some dst => tr.service_type == dst || tr.service_type == .AB || dst == .AB
    else false
  else false

/-- One iteration of the alighting loop (core.py:237-263), folded over a
snapshot of `train.boarded_demand`; state is (train, station, alighted
count). -/
def alightStep (sid : ℕ) (arrTime : ℚ) :
    Train × Station × ℤ → Demand → Train × Station × ℤ :=
  fun acc d =>
    let tr := acc.1
    let st := acc.2.1
    let alighted := acc.2.2
    -- Case 1: direct trip at its final destination
    if d.trip_type == .DIRECT && d.destination_station_id == sid then
      let tr' := { tr with
        boarded_demand := tr.boarded_demand.eraseP (fun x => x.did == d.did)
        current_passenger_count := tr.current_passenger_count - d.passenger_count }
      (tr', st, alighted + d.passenger_count)
    -- Case 2: transfer trip reaching its transfer station on leg 1
    else if d.trip_type == .TRANSFER && d.transfer_station_id == some sid
        && d.status == .inTransitLeg1 then
      let d' := { d with
        status := .waitingForTransfer
        arrival_at_transfer_time := some arrTime
        direction := some (if sid < d.destination_station_id
                           then Direction.southbound else Direction.northbound)
        train_id := none }
      let st' := { st with waiting_demand := st.waiting_demand ++ [d'] }
      let tr' := { tr with
        boarded_demand := tr.boarded_demand.eraseP (fun x => x.did == d.did)
        current_passenger_count := tr.current_passenger_count - d.passenger_count }
      (tr', st', alighted + d.passenger_count)
    -- Case 3: transfer trip at its final destination on leg 2
    else if d.trip_type == .TRANSFER && d.destination_station_id == sid
        && d.status == .inTransitLeg2 then
      let tr' := { tr with
        boarded_demand := tr.boarded_demand.eraseP (fun x => x.did == d.did)
        current_passenger_count := tr.current_passenger_count - d.passenger_count }
      (tr', st, alighted + d.passenger_count)
    else
      (tr, st, alighted)

/-- The bookkeeping applied to a group the moment it boards
(core.py:306-318). -/
def Demand.boardUpdate (d : Demand) (arrTime depTime : ℚ) (tid : ℕ) : Demand :=
  let d' :=
    if d.status == .waitingAtOrigin then
      let d1 := { d with boarding_time := some arrTime
                         departure_from_origin_time := some depTime }
      { d1.calculateWaitTime with status := DemandStatus.inTransitLeg1 }
    else if d.status == .waitingForTransfer then
      { d with status := DemandStatus.inTransitLeg2
               departure_from_transfer_time := some depTime }
    else d
  { d' with train_id := some tid }

/-- One iteration of the boarding loop (core.py:266-327), folded over a
snapshot of `station.waiting_demand`; state is (train, station, boarded
count, break flag).  A compatible group boards only when the whole group
fits (`num_to_board == demand.passenger_count`); a larger group falls into
the unimplemented partial-boarding branch and is left untouched. -/
def boardStep (schemeMap : ℕ → Option SType) (arrTime depTime : ℚ) :
    Train × Station × ℤ × Bool → Demand → Train × Station × ℤ × Bool :=
  fun acc d =>
    let tr := acc.1
    let st := acc.2.1
    let boarded := acc.2.2.1
    let stop := acc.2.2.2
    if stop then acc
    else if boardCond schemeMap st tr depTime d then
      let avail := tr.capacity - tr.current_passenger_count
      if avail ≤ 0 then (tr, st, boarded, true)
      else
        let n := min avail d.passenger_count
        if 0 < n then
          if n == d.passenger_count then
            let st' := { st with
              waiting_demand := st.waiting_demand.eraseP (fun x => x.did == d.did) }
            let d' := d.boardUpdate arrTime depTime tr.train_id
            let tr' := { tr with
              boarded_demand := tr.boarded_demand ++ [d']
              current_passenger_count := tr.current_passenger_count + n }
            (tr', st', boarded + n, stop)
          else acc
        else acc
    else acc

/-- `Station.process_passenger_exchange` (core.py:230-329): the alight
phase over a snapshot of the boarded list, then the board phase over a
snapshot of the (post-alight) waiting list.  Returns
(alighted, boarded, train, station). -/
def processPassengerExchange (schemeMap : ℕ → Option SType) (tr : Train)
    (st : Station) (arrTime depTime : ℚ) : ℤ × ℤ × Train × Station :=
  let a := tr.boarded_demand.foldl (alightStep st.station_id arrTime) (tr, st, 0)
  let tr1 := a.1
  let st1 := a.2.1
  let alighted := a.2.2
  let b := st1.waiting_demand.foldl (boardStep schemeMap arrTime depTime)
      (tr1, st1, 0, false)
  (alighted, b.2.2.1, b.1, b.2.1)

/-- A timetable record (`TimetableEntry`, core.py:90-116). -/
structure TimetableEntry where
  train_status : TrainRunStatus
  train_id : ℕ
  service_type : SType
  station_id : ℕ
  direction : Direction
  arrival_time : Option ℚ
  departure_time : ℚ
  travel_time : ℚ
  passengers_boarded : ℤ
  passengers_alighted : ℤ
  current_station_passenger_count : ℤ
  current_passenger_count : ℤ
  deriving DecidableEq, Repr

/-- `EventHandler._record_timetable_entry` (core.py:647-664) builds the
entry; the waiting-count snapshot sums groups already arrived by the
departure time (core.py:660). -/
def mkTimetableEntry (tr : Train) (st : Station) (arrivalTime : Option ℚ)
    (departureTime travelTime : ℚ) (status : TrainRunStatus)
    (boarded alighted : ℤ) : TimetableEntry :=
  { train_status := status
    train_id := tr.train_id
    service_type := tr.service_type
    station_id := st.station_id
    direction := tr.direction
    arrival_time := arrivalTime
    departure_time := departureTime
    travel_time := travelTime
    passengers_boarded := boarded
    passengers_alighted := alighted
    current_station_passenger_count :=
      (st.waiting_demand.filter (fun d => decide (d.arrival_time ≤ departureTime))).foldl
        (fun s d => s + d.passenger_count) 0
    current_passenger_count := tr.current_passenger_count }

/-- Event discriminator tags (core.py:544-559). -/
inductive EventType
  | train_arrival
  | train_departure
  | segment_enter
  | segment_exit
  | turnaround
  | service_period_change
  | train_insertion
  deriving DecidableEq, Repr

/-- The event-type priority map of `Event.__lt__` (core.py:524-532):
lower ordinal is popped first among equal times. -/
def eventOrdinal : EventType → ℕ
  | .service_period_change => 0
  | .train_departure => 1
  | .segment_exit => 2
  | .train_arrival => 3
  | .turnaround => 4
  | .segment_enter => 5
  | .train_insertion => 6

/-- An event (`Event`, core.py:508-515); entity references are arena ids,
`period` an index into the service-period list. -/
structure Event where
  time : ℚ
  etype : EventType
  train : Option ℕ := none
  station : Option ℕ := none
  segment : Option (ℕ × ℕ) := none
  period : Option ℕ := none
  deriving DecidableEq, Repr

/-- Positional constructor for the events the handlers schedule (all of
which carry no period reference). -/
def evt (time : ℚ) (ty : EventType) (train station : Option ℕ)
    (segment : Option (ℕ × ℕ)) : Event :=
  { time := time
    etype := ty
    train := train
    station := station
    segment := segment
    period := none }

/-- Equality test on rationals through the (unique) normalized
num/den representation; extensionally the same as `=` on ℚ. -/
def qeq (a b : ℚ) : Bool := a.num == b.num && a.den == b.den

/-- `Event.__lt__` (core.py:517-538): earlier time first, ties broken by
the event-type ordinal. -/
def Event.lt (a b : Event) : Bool :=
  if a.time ≠ b.time then decide (a.time < b.time)
  else decide (eventOrdinal a.etype < eventOrdinal b.etype)

/-- The key the priority queue orders by: `(event.time, event)` tuples
(core.py:1791) compare by time and then by `Event.__lt__`, i.e. by the
lexicographic key (time, ordinal). -/
def Event.keyLE (a b : Event) : Bool :=
  decide (a.time < b.time) ||
    (qeq a.time b.time && decide (eventOrdinal a.etype ≤ eventOrdinal b.etype))

/-- Pop of the minimum-key event.  The heap always yields an event whose
(time, ordinal) key is minimal; among exactly equal keys the choice is
implementation-defined but deterministic, modelled here as the earliest
inserted. -/
def selectMin : List Event → Option (Event × List Event)
  | [] => none
  | e :: es =>
    match selectMin es with
    | none => some (e, [])
    | some (m, rest) =>
      if e.keyLE m then some (e, es) else some (m, e :: rest)

/-- `min(events, key=lambda e: e.time)`: the first event of minimal time. -/
def minByTime : List Event → Option Event
  | [] => none
  | e :: es =>
    match minByTime es with
    | none => some e
    | some m => if decide (e.time ≤ m.time) then some e else some m

/-- A service period (`DEFAULT_SERVICE_PERIODS` entries enriched with the
headway computed by `_initialize_service_periods`, core.py:1629-1650). -/
structure Period where
  train_count : ℕ
  start_hour : ℕ
  headway : ℚ := 0
  deriving DecidableEq, Repr

/-- The full simulation state (`Simulation`, core.py:1379-1406): the only
mutable data the event handlers touch. -/
structure SimState where
  stations : List Station
  segments : List Segment
  trains : List Train
  queue : List Event
  active_trains : List ℕ
  active_headway : ℚ
  trains_to_withdraw : ℤ
  current_time : ℚ
  dwell_time : ℚ
  turnaround_time : ℚ
  end_time : ℚ
  scheme_regular : Bool
  periods : List Period
  timetables : List TimetableEntry
  deriving DecidableEq, Repr

/-- `Simulation.get_station_by_id` (core.py:1975-1977). -/
def SimState.getStation (s : SimState) (sid : ℕ) : Option Station :=
  s.stations.find? (fun st => st.station_id == sid)

/-- `Simulation.get_segment_by_id` (core.py:1979-1981). -/
def SimState.getSegment (s : SimState) (sid : ℕ × ℕ) : Option Segment :=
  s.segments.find? (fun sg => sg.segment_id == sid)

/-- Dereference a train id. -/
def SimState.getTrain (s : SimState) (tid : ℕ) : Option Train :=
  s.trains.find? (fun t => t.train_id == tid)

/-- Write back a station (identity-keyed arena update). -/
def SimState.setStation (s : SimState) (st : Station) : SimState :=
  { s with stations :=
      s.stations.map fun x => if x.station_id == st.station_id then st else x }

/-- Write back a segment. -/
def SimState.setSegment (s : SimState) (sg : Segment) : SimState :=
  { s with segments :=
      s.segments.map fun x => if x.segment_id == sg.segment_id then sg else x }

/-- Write back a train. -/
def SimState.setTrain (s : SimState) (t : Train) : SimState :=
  { s with trains :=
      s.trains.map fun x => if x.train_id == t.train_id then t else x }

/-- `self.station_type_map` (core.py:1423): station id to station type. -/
def SimState.schemeMap (s : SimState) : ℕ → Option SType :=
  fun sid => (s.getStation sid).map (·.station_type)

/-- `Simulation.schedule_event` (core.py:1789-1791). -/
def SimState.scheduleEvent (s : SimState) (e : Event) : SimState :=
  { s with queue := s.queue ++ [e] }

/-- The direction of the train referenced by an event, if any (used by the
queue scans that read `e.train.direction`). -/
def SimState.eventTrainDirection (s : SimState) (e : Event) : Option Direction :=
  (e.train.bind s.getTrain).map (·.direction)

/-- `Simulation.get_event_by_type` (core.py:1983-1989): first queued event
of the given type matching the optional station / segment filters. -/
def SimState.getEventByType (s : SimState) (ty : EventType)
    (station : Option ℕ) (segment : Option (ℕ × ℕ)) : Option Event :=
  s.queue.find? (fun e => e.etype == ty
    && (station.isNone || e.station == station)
    && (segment.isNone || e.segment == segment))

/-- The metrics record returned by
`EventHandler._calculate_system_congestion_metrics` (core.py:1322-1377). -/
structure Metrics where
  active_trains : ℕ
  trains_in_segments : ℕ
  segment_congestion : ℚ
  upcoming_arrivals : ℕ
  multiplier : ℚ
  deriving DecidableEq, Repr

/-- `_calculate_system_congestion_metrics` (core.py:1322-1377): counts the
active trains whose `current_station` is `None` as "in segments", derives
the congestion ratio and the banded headway multiplier, and counts queued
northbound `segment_exit` events at station 1. -/
def congestionMetrics (s : SimState) : Metrics :=
  let activeCount := s.active_trains.length
  let inSegments := (s.active_trains.filterMap s.getTrain).countP
      (fun t => t.current_station == none)
  let congestion : ℚ := (inSegments : ℚ) / (max activeCount 1 : ℚ)
  let upcoming := s.queue.countP (fun e =>
    e.etype == .segment_exit
    && (match e.station with | some sid => sid == 1 | none => false)
    && s.eventTrainDirection e == some .northbound)
  let m0 : ℚ :=
    if congestion > 7/10 then 13/10
    else if congestion > 1/2 then 12/10
    else if congestion > 3/10 then 11/10
    else 1
  let m1 := if 2 < upcoming then m0 + 2/10 else m0
  { active_trains := activeCount
    trains_in_segments := inSegments
    segment_congestion := congestion
    upcoming_arrivals := upcoming
    multiplier := min m1 (3/2) }

/-- The `while final_departure_time in existing_departure_times` loop of
`_handle_departure` (core.py:1076-1077): advance by 3 s until the time is
fresh.  Each collision is with a distinct member, so fuel
`length + 1` reaches the fixpoint. -/
def bumpTime (fuel : ℕ) (t : ℚ) (taken : List ℚ) : ℚ :=
  match fuel with
  | 0 => t
  | f + 1 => if taken.any (qeq t) then bumpTime f (t + 3) taken else t

/-- The deployment loop of `_handle_service_period_change`
(core.py:600-638): activate each chosen roster train, schedule its
`train_insertion`, and advance the insertion time by the adaptive
spread, recomputing the congestion multiplier between insertions. -/
def deployFold (spread : ℚ) (k : ℕ) :
    List (ℕ × ℕ) → SimState → ℚ → ℚ → SimState
  | [], s, _, _ => s
  | (i, tid) :: rest, s, depTime, mult =>
    let s :=
      match s.getTrain tid with
      | none => s
      | some t => s.setTrain { t with is_active := true, current_speed := t.cruising_speed }
    let s := { s with active_trains := s.active_trains ++ [tid] }
    let s := s.scheduleEvent (evt depTime .train_insertion (some tid) none (some (2, 1)))
    let depTime := depTime + 60 * (s.active_headway * mult * spread)
    let depTime :=
      if 0 < i && i % 3 == 0 then depTime + 60 * (s.active_headway * (1/2))
      else depTime
    let mult := if i < k - 1 then (congestionMetrics s).multiplier else mult
    deployFold spread k rest s depTime mult

/-- `EventHandler._handle_service_period_change` (core.py:561-645). -/
def handleServicePeriodChange (e : Event) (s : SimState) : SimState :=
  match e.period.bind (fun i => s.periods.get? i) with
  | none => s
  | some period =>
    let s := { s with active_headway := period.headway }
    let target := period.train_count
    let current := s.active_trains.length
    if current < target then
      let toDeploy := min (target - current) (s.trains.length - current)
      let available := (s.trains.filter
        (fun t => !(s.active_trains.contains t.train_id))).map (·.train_id)
      let m := congestionMetrics s
      let initialDelay := 60 * max 2 (s.active_headway * (1/2))
      let depTime0 := e.time + initialDelay
      let spread : ℚ := if toDeploy ≤ 3 then 12/10 else 15/10
      deployFold spread toDeploy (available.take toDeploy).enum s depTime0 m.multiplier
    else if target < current then
      { s with trains_to_withdraw := (current : ℤ) - (target : ℤ) }
    else s

/-- `EventHandler._handle_arrival` (core.py:666-758): the withdrawal
check at a northbound station-1 arrival, otherwise the normal arrival
processing, which assigns the platform slot unconditionally
(core.py:731) and schedules the follow-up turnaround or departure. -/
def handleArrival (e : Event) (s : SimState) : SimState :=
  match e.train.bind s.getTrain, e.station.bind s.getStation with
  | some tr, some st =>
    let arrivalTime := e.time
    if 0 < s.trains_to_withdraw && st.station_id == 1
        && tr.direction == Direction.northbound then
      -- withdrawal branch (core.py:672-711)
      let endOfService := arrivalTime + s.dwell_time
      if s.active_trains.contains tr.train_id then
        let s := { s with
          active_trains := s.active_trains.erase tr.train_id
          trains_to_withdraw := s.trains_to_withdraw - 1 }
        let tr := { tr with is_active := false }
        let r := processPassengerExchange s.schemeMap tr st
          (tr.arrival_time.getD 0) endOfService
        let alighted := r.1
        let boarded := r.2.1
        let tr := r.2.2.1
        let st := r.2.2.2
        let entry := mkTimetableEntry tr st (some arrivalTime) endOfService
          tr.current_journey_travel_time .inactive boarded alighted
        let st := st.setPlatform tr.direction none
        let s := { s with timetables := s.timetables ++ [entry] }
        (s.setTrain tr).setStation st
      else s
    else
      -- normal arrival processing (core.py:715-758)
      let departureTime :=
        if s.scheme_regular then arrivalTime + s.dwell_time
        else if !(st.shouldStop tr) then arrivalTime
        else arrivalTime + s.dwell_time
      let tr := { tr with current_station := some st.station_id }
      let st := st.setPlatform tr.direction (some tr.train_id)
      let s := (s.setTrain tr).setStation st
      if st.is_terminus then
        s.scheduleEvent (evt departureTime .turnaround (some tr.train_id) (some st.station_id) none)
      else
        s.scheduleEvent (evt departureTime .train_departure (some tr.train_id) (some st.station_id) none)
  | _, _ => s

/-- `EventHandler._handle_insertion` (core.py:760-933), including the
loop-detection branch that resets the event queue to an empty
`PriorityQueue()` (core.py:919-930). -/
def handleInsertion (e : Event) (s : SimState) : SimState :=
  match e.train.bind s.getTrain, e.segment.bind s.getSegment with
  | some tr, some seg =>
    let currentTime := e.time
    let m := congestionMetrics s
    let adaptiveHeadway := s.active_headway * m.multiplier
    -- simultaneous segment_enter conflict (core.py:772-798)
    let conflictEnter := s.getEventByType .segment_enter none (some seg.segment_id)
    let enterConflict :=
      match conflictEnter with
      | some ce => qeq ce.time e.time
      | none => false
    if enterConflict then
      s.scheduleEvent (evt (e.time + 60 * adaptiveHeadway) .train_insertion
        (some tr.train_id) none (some seg.segment_id))
    else
      -- station 1 northbound platform check (core.py:802-839)
      let platformOccupied :=
        match s.getStation 1 with
        | some st1 => (st1.platform .northbound).isSome
        | none => false
      let depEvents := s.queue.filter fun ev =>
        ev.etype == .train_departure && ev.station == some 1
          && s.eventTrainDirection ev == some .northbound
      let platformReschedule : Option ℚ :=
        if platformOccupied then
          match minByTime depEvents with
          | some nextDep =>
            let buffer : ℚ := if m.segment_congestion > 1/2 then 60 else 30
            let required := nextDep.time + buffer
            if required > currentTime then some required else none
          | none => none
        else none
      match platformReschedule with
      | some required =>
        s.scheduleEvent (evt required .train_insertion
          (some tr.train_id) none (some seg.segment_id))
      | none =>
        -- core.py:841-843: status and direction mutated before the attempt
        let tr := { tr with run_status := .insertion, direction := .northbound }
        let s := s.setTrain tr
        let res := seg.enter tr.train_id e.time
        if res.1 then
          -- success (core.py:845-873): fixed one-minute depot traversal
          let arrivalTime := e.time + 60
          let tr := { tr with
            last_departure_time := some e.time
            current_journey_travel_time := 60
            arrival_time := some arrivalTime }
          let s := (s.setSegment res.2).setTrain tr
          s.scheduleEvent (evt arrivalTime .segment_exit
            (some tr.train_id) (some 1) (some seg.segment_id))
        else
          -- failure (core.py:874-933)
          let conflictExit := s.getEventByType .segment_exit none (some seg.segment_id)
          let required :=
            match conflictExit with
            | some ev =>
              if ev.train.isSome then ev.time + 60 * adaptiveHeadway
              else e.time + 60 * adaptiveHeadway
            | none => e.time + 60 * adaptiveHeadway
          let s := s.scheduleEvent (evt required .train_insertion
            (some tr.train_id) none (some seg.segment_id))
          -- safety check (core.py:919-930): reset the entire event queue
          if qeq e.time required then { s with queue := [] } else s
  | _, _ => s

/-- The adaptive reschedule time computed by the conflict path of
`_handle_departure` (core.py:995-1100): the congestion-scaled conflict
buffer, the earliest known `segment_exit` / `train_departure` of the
blocking occupants (with reduced-headway fallbacks), the maximum of the
resulting times, the 3-second bumping past other pending departures at
the same station, and the 3x-dwell cap applied only when it would not
move the departure earlier than the current event. -/
def departureRescheduleTime (s : SimState) (e : Event) (tr : Train)
    (st : Station) (nextSt : Station) (nextSeg : Segment)
    (nextStationId : ℕ) : ℚ :=
  let m := congestionMetrics s
  let baseBuffer : ℚ := 5
  let bufferFactor : ℚ :=
    if m.segment_congestion > 3/5 then 2
    else if m.segment_congestion > 2/5 then 3/2
    else 1
  let bufferConflict := baseBuffer * bufferFactor
  let required0 := e.time
  let required1 :=
    if nextSeg.occupied_by.isSome then
      let exitEvents := s.queue.filter fun ev =>
        ev.etype == .segment_exit && ev.segment == some nextSeg.segment_id
          && ev.train == nextSeg.occupied_by
      match minByTime exitEvents with
      | some earliest => max required0 (earliest.time + bufferConflict)
      | none =>
        let dhm := max 1 (m.multiplier * (8/10))
        max required0 (e.time + 60 * (s.active_headway * dhm))
    else required0
  let required2 :=
    if (nextSt.platform tr.direction).isSome then
      let clearEvents := s.queue.filter fun ev =>
        ev.etype == .train_departure && ev.station == some nextStationId
          && ev.train == nextSt.platform tr.direction
      match minByTime clearEvents with
      | some earliest => max required1 (earliest.time + bufferConflict)
      | none =>
        let dhm := max 1 (m.multiplier * (8/10))
        max required1 (e.time + 60 * (s.active_headway * dhm))
    else required1
  let existingTimes := (s.queue.filter fun ev =>
    ev.etype == .train_departure && ev.station == some st.station_id
      && ev.train != some tr.train_id).map (·.time)
  let final0 := bumpTime (existingTimes.length + 1) required2 existingTimes
  let currentDwell := final0 - tr.arrival_time.getD 0
  let maxAllowed := s.dwell_time * 3
  if currentDwell > maxAllowed then
    let adjusted := tr.arrival_time.getD 0 + maxAllowed
    if adjusted > e.time then adjusted else final0
  else final0

/-- `EventHandler._handle_departure` (core.py:935-1141): the is_active
gate, the resource gate on the next platform and next segment, the
success path (exchange, timetable, unconditional platform clear,
segment_enter at the same time) and the adaptive reschedule path. -/
def handleDeparture (e : Event) (s : SimState) : SimState :=
  match e.train.bind s.getTrain, e.station.bind s.getStation with
  | some tr, some st =>
    if !tr.is_active then s
    else
      let nextStationId :=
        if tr.direction == Direction.southbound then st.station_id + 1
        else st.station_id - 1
      match s.getStation nextStationId, (st.getNextSegment tr.direction).bind s.getSegment with
      | some nextSt, some nextSeg =>
        let departureTime := e.time
        if (nextSt.platform tr.direction).isNone && nextSeg.isAvailable then
          -- success path (core.py:950-990)
          let travelTime := tr.current_journey_travel_time
          let tr := { tr with run_status := .active }
          let r :=
            if st.shouldStop tr then
              processPassengerExchange s.schemeMap tr st
                (tr.arrival_time.getD 0) departureTime
            else (0, 0, tr, st)
          let alighted := r.1
          let boarded := r.2.1
          let tr := r.2.2.1
          let st := r.2.2.2
          let entry := mkTimetableEntry tr st tr.arrival_time departureTime
            travelTime tr.run_status boarded alighted
          let tr := { tr with
            last_departure_time := some departureTime
            current_journey_travel_time := 0 }
          let st := st.setPlatform tr.direction none
          let s := { s with timetables := s.timetables ++ [entry] }
          let s := (s.setTrain tr).setStation st
          s.scheduleEvent (evt departureTime .segment_enter
            (some tr.train_id) (some nextStationId) (some nextSeg.segment_id))
        else
          -- conflict path (core.py:992-1141)
          let final := departureRescheduleTime s e tr st nextSt nextSeg nextStationId
          if !qeq final e.time then
            s.scheduleEvent (evt final .train_departure
              (some tr.train_id) (some st.station_id) none)
          else if nextSeg.occupied_by.isSome || (nextSt.platform tr.direction).isSome then
            -- forced-delay safety check (core.py:1122-1141)
            s.scheduleEvent (evt (e.time + 60 * (s.active_headway * (8/10)))
              .train_departure (some tr.train_id) (some st.station_id) none)
          else s
      | _, _ => s
  | _, _ => s

/-- `EventHandler._handle_turnaround` (core.py:1143-1210). -/
def handleTurnaround (e : Event) (s : SimState) : SimState :=
  match e.train.bind s.getTrain, e.station.bind s.getStation with
  | some tr, some st =>
    if !tr.is_active then s
    else
      let departureTime := e.time
      let r := processPassengerExchange s.schemeMap tr st
        (tr.arrival_time.getD 0) departureTime
      let alighted := r.1
      let boarded := r.2.1
      let tr := r.2.2.1
      let st := r.2.2.2
      let entry := mkTimetableEntry tr st tr.arrival_time departureTime
        tr.current_journey_travel_time tr.run_status boarded alighted
      let s := { s with timetables := s.timetables ++ [entry] }
      let previousDirection := tr.direction
      let st := st.setPlatform previousDirection none
      let tr := { tr with direction := previousDirection.flip }
      if decide (e.time ≤ s.end_time) then
        let tr := { tr with
          arrival_time := some (departureTime + s.turnaround_time)
          current_journey_travel_time := s.turnaround_time }
        let nextDepartureTime := departureTime + s.turnaround_time + s.dwell_time
        let s := (s.setTrain tr).setStation st
        s.scheduleEvent (evt nextDepartureTime .train_departure
          (some tr.train_id) (some st.station_id) none)
      else
        (s.setTrain tr).setStation st
  | _, _ => s

/-- `EventHandler._handle_segment_enter` (core.py:1212-1302): the
`segment.enter` attempt, on success the platform clear at the departed
station, the motion-model traversal and the `segment_exit` at
`t + traversal`; on failure the adaptive reschedule of the same
`segment_enter`. -/
def handleSegmentEnter (e : Event) (s : SimState) : SimState :=
  match e.train.bind s.getTrain, e.segment.bind s.getSegment,
      e.station.bind s.getStation with
  | some tr, some seg, some nextSt =>
    let currentTime := e.time
    let res := seg.enter tr.train_id e.time
    if res.1 then
      let s := s.setSegment res.2
      -- clear the platform of the station the train is departing
      let s :=
        match tr.current_station.bind s.getStation with
        | some depSt => s.setStation (depSt.setPlatform tr.direction none)
        | none => s
      let stops := nextSt.shouldStop tr
      let tv := calcTraversalTime tr.accel_rate tr.decel_rate tr.cruising_speed
        tr.passthrough_speed tr.current_speed stops seg.distance
      let traversal := tv.1
      let exitTime := currentTime + (traversal : ℚ)
      let tr := { tr with
        current_speed := tv.2
        current_journey_travel_time := tr.current_journey_travel_time + (traversal : ℚ)
        arrival_time := some exitTime }
      let s :=
        match s.getSegment seg.segment_id with
        | some sg => s.setSegment { sg with next_available := some exitTime }
        | none => s
      let s := s.setTrain tr
      s.scheduleEvent (evt exitTime .segment_exit
        (some tr.train_id) (some nextSt.station_id) (some seg.segment_id))
    else
      let m := congestionMetrics s
      let exitEvents := s.queue.filter fun ev =>
        ev.etype == .segment_exit && ev.segment == some seg.segment_id
      match minByTime exitEvents with
      | some earliest =>
        let bufferSeconds : ℚ := if m.segment_congestion > 3/5 then 30 else 15
        s.scheduleEvent (evt (earliest.time + bufferSeconds) .segment_enter
          (some tr.train_id) (some nextSt.station_id) (some seg.segment_id))
      | none =>
        let adaptiveHeadway := s.active_headway * m.multiplier
        s.scheduleEvent (evt (currentTime + 60 * adaptiveHeadway) .segment_enter
          (some tr.train_id) (some nextSt.station_id) (some seg.segment_id))
  | _, _, _ => s

/-- `EventHandler._handle_segment_exit` (core.py:1304-1320): free the
segment (only an occupancy by this very train is cleared) and schedule
the arrival at the same timestamp. -/
def handleSegmentExit (e : Event) (s : SimState) : SimState :=
  match e.train.bind s.getTrain, e.segment.bind s.getSegment with
  | some tr, some seg =>
    let res := seg.exit tr.train_id e.time
    let s := s.setSegment res.2
    s.scheduleEvent (evt e.time .train_arrival
      (some tr.train_id) e.station none)
  | _, _ => s

/-- `EventHandler.process_event` (core.py:544-559). -/
def processEvent (e : Event) (s : SimState) : SimState :=
  match e.etype with
  | .train_arrival => handleArrival e s
  | .train_departure => handleDeparture e s
  | .segment_enter => handleSegmentEnter e s
  | .segment_exit => handleSegmentExit e s
  | .turnaround => handleTurnaround e s
  | .service_period_change => handleServicePeriodChange e s
  | .train_insertion => handleInsertion e s

/-- One iteration of the main loop (core.py:1808-1817): stop when the
clock reached the horizon or the queue is empty; otherwise pop the
minimum event, advance the clock, and dispatch unless the event lies at
or past the end time. -/
def stepSim (s : SimState) : Option (Event × SimState) :=
  if decide (s.current_time < s.end_time) then
    match selectMin s.queue with
    | none => none
    | some (e, rest) =>
      let s1 := { s with queue := rest, current_time := e.time }
      if decide (s.end_time ≤ e.time) then some (e, s1)
      else some (e, processEvent e s1)
  else none

/-- Run `n` iterations of the main loop. -/
def runSim : ℕ → SimState → SimState
  | 0, s => s
  | n + 1, s =>
    match stepSim s with
    | none => s
    | some (_, s') => runSim n s'

/-- The times of the first `n` events popped by the main loop. -/
def popTimes : ℕ → SimState → List ℚ
  | 0, _ => []
  | n + 1, s =>
    match stepSim s with
    | none => []
    | some (e, s') => e.time :: popTimes n s'

/-- The first `n` events popped by the main loop. -/
def popEvents : ℕ → SimState → List Event
  | 0, _ => []
  | n + 1, s =>
    match stepSim s with
    | none => []
    | some (e, s') => e :: popEvents n s'

/-- Segment lookup by end points and direction
(`get_segment` inside `calculate_loop_time`, core.py:2022-2028). -/
def findSegment (segments : List Segment) (a b : ℕ) (dir : Direction) :
    Option Segment :=
  segments.find? fun sg =>
    sg.start_station_id == a && sg.end_station_id == b && sg.direction == dir

/-- `get_next_station` inside `calculate_loop_time` (core.py:2008-2019),
on indices into the station list. -/
def nextIdx (n i : ℕ) : Direction → Option ℕ
  | .southbound => if i + 1 < n then some (i + 1) else none
  | .northbound => if 0 < i then some (i - 1) else none

/-- The outbound walk of `calculate_loop_time` (core.py:2041-2073):
traverse to the far terminus accumulating traversal plus dwell where the
train stops, then add the turnaround and flip direction. -/
def loopWalkOut (stations : List Station) (segments : List Segment)
    (dwell turnaround : ℚ) :
    ℕ → ℕ → Direction → Train → ℚ → ℕ × Direction × Train × ℚ
  | 0, i, dir, tr, total => (i, dir, tr, total)
  | fuel + 1, i, dir, tr, total =>
    match nextIdx stations.length i dir with
    | none => (i, dir.flip, tr, total + turnaround)
    | some j =>
      match stations.get? i, stations.get? j with
      | some cur, some nxt =>
        match findSegment segments cur.station_id nxt.station_id dir with
        | none => (i, dir, tr, total)
        | some seg =>
          let stops := nxt.shouldStop tr
          let tv := calcTraversalTime tr.accel_rate tr.decel_rate
            tr.cruising_speed tr.passthrough_speed tr.current_speed stops
            seg.distance
          let tr := { tr with current_speed := tv.2 }
          let total := total + (tv.1 : ℚ) + (if stops then dwell else 0)
          loopWalkOut stations segments dwell turnaround fuel j dir tr total
      | _, _ => (i, dir, tr, total)

/-- The return walk of `calculate_loop_time` (core.py:2076-2114): traverse
back until the next station is the start, the final leg adding its
traversal plus an unconditional dwell. -/
def loopWalkBack (stations : List Station) (segments : List Segment)
    (dwell : ℚ) (startIdx : ℕ) :
    ℕ → ℕ → Direction → Train → ℚ → Train × ℚ
  | 0, _, _, tr, total => (tr, total)
  | fuel + 1, i, dir, tr, total =>
    match nextIdx stations.length i dir with
    | none => (tr, total)
    | some j =>
      match stations.get? i, stations.get? j with
      | some cur, some nxt =>
        match findSegment segments cur.station_id nxt.station_id dir with
        | none => (tr, total)
        | some seg =>
          let stops := nxt.shouldStop tr
          let tv := calcTraversalTime tr.accel_rate tr.decel_rate
            tr.cruising_speed tr.passthrough_speed tr.current_speed stops
            seg.distance
          let tr := { tr with current_speed := tv.2 }
          if j == startIdx then
            (tr, total + (tv.1 : ℚ) + dwell)
          else
            let total := total + (tv.1 : ℚ) + (if stops then dwell else 0)
            loopWalkBack stations segments dwell startIdx fuel j dir tr total
      | _, _ => (tr, total)

/-- `Simulation.calculate_loop_time` (core.py:1991-2116): one walk from
the train's station to the far terminus and back, with the train's
current speed primed to cruising and mutated by each traversal. -/
def calcLoopTime (stations : List Station) (segments : List Segment)
    (dwell turnaround : ℚ) (tr : Train) : ℚ × Train :=
  let tr := { tr with current_speed := tr.cruising_speed }
  let startIdx :=
    match tr.current_station with
    | some sid => (stations.findIdx? (fun st => st.station_id == sid)).getD 0
    | none => 0
  let n := stations.length
  let out := loopWalkOut stations segments dwell turnaround n startIdx
    tr.direction tr 0
  let back := loopWalkBack stations segments dwell startIdx n out.1
    out.2.1 out.2.2.1 out.2.2.2
  (back.2, back.1)

/-- A simulation configuration: the config-dict fields the core consumes
(core.py:1380-1404, 1460-1585) together with the service-period list the
`service_period_change` controller reads (train counts and start hours,
core.py:561-645, 1629-1650). -/
structure Config where
  numStations : ℕ
  distancesKm : List ℚ
  dwell : ℚ
  turnaround : ℚ
  accel : ℚ
  decel : ℚ
  maxSpeedKmh : ℚ
  capacity : ℤ
  schemeRegular : Bool
  pattern : List SType
  periodSpecs : List (ℕ × ℕ)
  deriving DecidableEq, Repr

/-- `_initialize_stations` (core.py:1460-1478): 1-based ids, all types AB
under REGULAR, first and last flagged terminus. -/
def initStations (cfg : Config) : List Station :=
  (List.range cfg.numStations).map fun k =>
    let sid := k + 1
    { station_id := sid
      station_type := if cfg.schemeRegular then .AB else cfg.pattern.getD k .AB
      is_terminus := sid == 1 || sid == cfg.numStations
      waiting_demand := [] }

/-- `_initialize_track_segments` (core.py:1500-1532): southbound segments
(i, i+1) then northbound segments (n-idx, n-idx-1) over the reversed
distances, in metres. -/
def initSegments (cfg : Config) : List Segment :=
  let n := cfg.numStations
  let south := cfg.distancesKm.enum.map fun p =>
    let idx := p.1 + 1
    { segment_id := (idx, idx + 1)
      start_station_id := idx
      end_station_id := idx + 1
      distance := p.2 * 1000
      direction := Direction.southbound }
  let north := cfg.distancesKm.reverse.enum.map fun p =>
    let startId := n - p.1
    let endId := n - p.1 - 1
    { segment_id := (startId, endId)
      start_station_id := startId
      end_station_id := endId
      distance := p.2 * 1000
      direction := Direction.northbound }
  south ++ north

/-- The segment-to-station cross-linking (core.py:1534-1538). -/
def linkStations (stations : List Station) (segments : List Segment) :
    List Station :=
  stations.map fun st =>
    { st with
      track_south := (segments.find? fun sg =>
        sg.start_station_id == st.station_id
          && sg.direction == Direction.southbound).map (·.segment_id)
      track_north := (segments.find? fun sg =>
        sg.start_station_id == st.station_id
          && sg.direction == Direction.northbound).map (·.segment_id) }

/-- `_initialize_trains` (core.py:1561-1586): roster sized to the maximum
period train count; under skip-stop odd ids are A trains and even ids B
trains; every train starts at station 1. -/
def initTrains (cfg : Config) : List Train :=
  let count := cfg.periodSpecs.foldl (fun acc p => max acc p.1) 0
  (List.range count).map fun k =>
    let tid := k + 1
    mkTrain tid cfg.capacity cfg.maxSpeedKmh cfg.accel cfg.decel
      (if cfg.schemeRegular then .AB else if tid % 2 == 0 then .B else .A)
      (some 1)

/-- `Simulation.initialize` plus `_create_simulation_entry` and
`_initialize_service_periods` (core.py:1408-1429, 1434-1437, 1629-1650):
build topology and roster, compute the loop time with train 1 (and, under
skip-stop, also with train 2, core.py:1673), derive each period's
headway, and schedule one `service_period_change` event per period at 30
minutes before its start hour.  The clock runs in seconds of the
simulation day, 05:00 to 22:00.

core.py:1631 and core.py:1673 index `self.trains[0]` (both schemes) and
`self.trains[1]` (SKIP-STOP) unconditionally, so an empty roster, or a
single-train roster under SKIP-STOP, raises IndexError during
initialization; the `run()` except handler (core.py:1830-1843) then
abandons the scheme before a single event is popped.  Such an aborted
run is modeled by its observable behavior: the state carries an empty
event queue, so the main loop processes nothing (see
`initSim_abort_no_events`); the roster fields of that state are never
read by a run. -/
def initSim (cfg : Config) : SimState :=
  let stations0 := initStations cfg
  let segments := initSegments cfg
  let stations := linkStations stations0 segments
  let trains0 := initTrains cfg
  let lt :=
    match trains0 with
    | [] => (0, trains0)
    | t0 :: rest =>
      let r := calcLoopTime stations segments cfg.dwell cfg.turnaround t0
      (r.1, r.2 :: rest)
  let loopSec := lt.1
  let trains1 := lt.2
  let trains :=
    if cfg.schemeRegular then trains1
    else
      match trains1 with
      | t0 :: t1 :: rest =>
        let r := calcLoopTime stations segments cfg.dwell cfg.turnaround t1
        t0 :: r.2 :: rest
      | _ => trains1
  let loopMin := pyInt (loopSec / 60)
  let periods := cfg.periodSpecs.map fun p =>
    ({ train_count := p.1, start_hour := p.2
       headway := (periodHeadway loopMin p.1 : ℚ) } : Period)
  let periodEvents := periods.enum.map fun p =>
    ({ time := ((p.2.start_hour - 1 : ℕ) : ℚ) * 3600 + 1800
       etype := EventType.service_period_change
       period := some p.1 } : Event)
  let aborted := trains0.length == 0
      || (!cfg.schemeRegular && decide (trains0.length < 2))
  { stations := stations
    segments := segments
    trains := trains
    queue := if aborted then [] else periodEvents
    active_trains := []
    active_headway := 0
    trains_to_withdraw := 0
    current_time := 18000
    dwell_time := cfg.dwell
    turnaround_time := cfg.turnaround
    end_time := 79200
    scheme_regular := cfg.schemeRegular
    periods := periods
    timetables := [] }

/-- A 3-station REGULAR-scheme configuration with empty demand: two
service periods, the first deploying one train at 05:00 and the second a
second train at 06:00. -/
def cexRegConfig : Config :=
  { numStations := 3
    distancesKm := [1, 442/100]
    dwell := 150
    turnaround := 60
    accel := 1
    decel := 1
    maxSpeedKmh := 72
    capacity := 100
    schemeRegular := true
    pattern := [.AB, .AB, .AB]
    periodSpecs := [(1, 5), (2, 6)] }

/-- A 3-station SKIP-STOP configuration with empty demand and a two-train
roster (train 1 type A, train 2 type B - `self.trains[1]` at
core.py:1673 exists, so initialization completes): the A train passes
through the B-type middle station, and the extreme
acceleration/deceleration pair makes the pass-through motion model
produce a negative traversal time from a standing start. -/
def cexSkipConfig : Config :=
  { numStations := 3
    distancesKm := [1/10, 1/10]
    dwell := 30
    turnaround := 60
    accel := 10
    decel := 1/100
    maxSpeedKmh := 72
    capacity := 100
    schemeRegular := false
    pattern := [.AB, .B, .AB]
    periodSpecs := [(2, 6)] }

/-! ### Arena lookup lemmas -/

/-- `find?` over an arena update at the queried key returns the updated
element. -/
theorem find?_map_if {α : Type} {κ : Type} [BEq κ] [LawfulBEq κ]
    (l : List α) (key : α → κ) (k : κ) (a : α) (ha : key a = k) :
    (l.map fun x => if key x == k then a else x).find? (fun x => key x == k)
      = (l.find? fun x => key x == k).map fun _ => a := by
  have ha' : (key a == k) = true := by simp [ha]
  induction l with
  | nil => simp
  | cons h t ih =>
    by_cases hh : (key h == k) = true
    · simp only [List.map_cons, if_pos hh]
      simp [List.find?, hh, ha']
    · have hh' : (key h == k) = false := by
        cases hgoal : (key h == k) with
        | true => exact absurd hgoal hh
        | false => rfl
      simp only [List.map_cons, if_neg hh]
      simp [List.find?, hh', ih]

/-- `find?` at a different key is unaffected by an arena update. -/
theorem find?_map_if_ne {α : Type} {κ : Type} [BEq κ] [LawfulBEq κ]
    (l : List α) (key : α → κ) (k k' : κ) (a : α) (ha : key a = k)
    (hne : k' ≠ k) :
    (l.map fun x => if key x == k then a else x).find? (fun x => key x == k')
      = l.find? fun x => key x == k' := by
  induction l with
  | nil => simp
  | cons h t ih =>
    by_cases hh : (key h == k) = true
    · have hhk : key h = k := by simpa using hh
      have h1 : (key h == k') = false := by
        simp [hhk]; exact fun hc => hne hc.symm
      have h2 : (key a == k') = false := by
        simp [ha]; exact fun hc => hne hc.symm
      simp only [List.map_cons, if_pos hh]
      simp [List.find?, h1, h2, ih]
    · by_cases hk' : (key h == k') = true
      · simp only [List.map_cons, if_neg hh]
        simp [List.find?, hk']
      · have hk'' : (key h == k') = false := by
          cases hgoal : (key h == k') with
          | true => exact absurd hgoal hk'
          | false => rfl
        simp only [List.map_cons, if_neg hh]
        simp [List.find?, hk'', ih]

theorem getStation_setStation (s : SimState) (st : Station) :
    (s.setStation st).getStation st.station_id
      = (s.getStation st.station_id).map fun _ => st :=
  find?_map_if s.stations Station.station_id st.station_id st rfl

theorem getStation_setStation_ne (s : SimState) (st : Station) (sid : ℕ)
    (h : sid ≠ st.station_id) :
    (s.setStation st).getStation sid = s.getStation sid := by
  simpa [SimState.setStation, SimState.getStation] using
    find?_map_if_ne s.stations Station.station_id st.station_id sid st rfl h

theorem getSegment_setSegment (s : SimState) (sg : Segment) :
    (s.setSegment sg).getSegment sg.segment_id
      = (s.getSegment sg.segment_id).map fun _ => sg :=
  find?_map_if s.segments Segment.segment_id sg.segment_id sg rfl

theorem getSegment_setSegment_ne (s : SimState) (sg : Segment) (k : ℕ × ℕ)
    (h : k ≠ sg.segment_id) :
    (s.setSegment sg).getSegment k = s.getSegment k :=
  find?_map_if_ne s.segments Segment.segment_id sg.segment_id k sg rfl h

theorem getTrain_setTrain (s : SimState) (t : Train) :
    (s.setTrain t).getTrain t.train_id
      = (s.getTrain t.train_id).map fun _ => t :=
  find?_map_if s.trains Train.train_id t.train_id t rfl

theorem getTrain_setTrain_ne (s : SimState) (t : Train) (tid : ℕ)
    (h : tid ≠ t.train_id) :
    (s.setTrain t).getTrain tid = s.getTrain tid :=
  find?_map_if_ne s.trains Train.train_id t.train_id tid t rfl h

/-! ### C9: headway rounding -/

/-- Any integer is at least one half away from a half-integer. -/
theorem half_le_abs_half_int (m n : ℤ) :
    (1/2 : ℚ) ≤ |(m : ℚ) + 1/2 - n| := by
  rcases le_or_lt n m with h | h
  · have hc : ((n : ℚ)) ≤ (m : ℚ) := by exact_mod_cast h
    have : (1/2 : ℚ) ≤ (m : ℚ) + 1/2 - n := by linarith
    exact this.trans (le_abs_self _)
  · have hc : ((m : ℚ)) + 1 ≤ (n : ℚ) := by exact_mod_cast h
    have : (1/2 : ℚ) ≤ -((m : ℚ) + 1/2 - n) := by linarith
    exact this.trans (neg_le_abs _)

/-- At an exact half-integer, the ceiling is the floor plus one. -/
theorem ceil_of_half (q : ℚ) (h : q = ⌊q⌋ + 1/2) : (⌈q⌉ : ℤ) = ⌊q⌋ + 1 := by
  rw [Int.ceil_eq_iff]
  constructor
  · push_cast
    linarith
  · push_cast
    linarith

/-- `round` returns a nearest integer. -/
theorem round_nearest (q : ℚ) (n : ℤ) :
    |q - (round q : ℚ)| ≤ |q - (n : ℚ)| := by
  by_contra hlt
  push_neg at hlt
  have h1 : |q - (round q : ℚ)| ≤ 1/2 := abs_sub_round q
  have h2 : |((round q : ℚ)) - (n : ℚ)| < 1 := by
    have ht := abs_sub_le ((round q : ℚ)) q ((n : ℚ))
    have hc : |(round q : ℚ) - q| = |q - (round q : ℚ)| := abs_sub_comm _ _
    linarith
  have h3 : round q = n := by
    have h4 : ((|round q - n| : ℤ) : ℚ) < 1 := by push_cast; exact h2
    have h5 : |round q - n| < 1 := by exact_mod_cast h4
    have h6 := abs_lt.mp h5
    omega
  rw [h3] at hlt
  exact absurd hlt (lt_irrefl _)

/-- C9: for every service period and scheme the derived headway is
`custom_round(loop_time_minutes / train_count)`, and `custom_round`
returns a nearest integer to its argument, returning the even neighbour
when the argument is exactly halfway between two consecutive integers. -/
theorem C9_headway_round_half_to_even :
    (∀ loopMin : ℤ, ∀ count : ℕ,
        periodHeadway loopMin count = custom_round ((loopMin : ℚ) / (count : ℚ)))
    ∧ (∀ q : ℚ, ∀ n : ℤ, |q - (custom_round q : ℚ)| ≤ |q - (n : ℚ)|)
    ∧ (∀ q : ℚ, q = ⌊q⌋ + 1/2 → Even (custom_round q)) := by
  refine ⟨fun _ _ => rfl, ?_, ?_⟩
  · intro q n
    unfold custom_round
    by_cases h : q = ⌊q⌋ + 1/2
    · rw [if_pos h]
      by_cases he : Even ⌊q⌋
      · rw [if_pos he]
        have e1 : q - (⌊q⌋ : ℚ) = 1/2 := by linarith
        have e2 : q - (n : ℚ) = (⌊q⌋ : ℚ) + 1/2 - (n : ℚ) := by linarith
        rw [e1, e2, abs_of_pos (by norm_num : (0:ℚ) < 1/2)]
        exact half_le_abs_half_int ⌊q⌋ n
      · rw [if_neg he, ceil_of_half q h]
        have e1 : q - ((⌊q⌋ + 1 : ℤ) : ℚ) = -(1/2) := by push_cast; linarith
        have e2 : q - (n : ℚ) = (⌊q⌋ : ℚ) + 1/2 - (n : ℚ) := by linarith
        rw [e1, e2, abs_neg, abs_of_pos (by norm_num : (0:ℚ) < 1/2)]
        exact half_le_abs_half_int ⌊q⌋ n
    · rw [if_neg h]
      exact round_nearest q n
  · intro q h
    unfold custom_round
    rw [if_pos h]
    by_cases he : Even ⌊q⌋
    · rw [if_pos he]
      exact he
    · rw [if_neg he, ceil_of_half q h]
      exact Int.even_add_one.mpr he

/-- Witness for C9 at the halfway input 5/2 and the integer 3. -/
theorem C9_witness :
    (5/2 : ℚ) = ⌊(5/2 : ℚ)⌋ + 1/2 ∧ Even (custom_round (5/2 : ℚ))
      ∧ |(5/2 : ℚ) - (custom_round (5/2 : ℚ) : ℚ)| ≤ |(5/2 : ℚ) - ((3 : ℤ) : ℚ)| :=
  ⟨by with_unfolding_all decide,
    C9_headway_round_half_to_even.2.2 (5/2) (by with_unfolding_all decide),
    C9_headway_round_half_to_even.2.1 (5/2) 3⟩

/-! ### Structural lemmas about the exchange and the arena -/

theorem foldl_preserve {α β : Type} (P : α → Prop) (f : α → β → α)
    (h : ∀ a b, P a → P (f a b)) :
    ∀ (l : List β) (a : α), P a → P (l.foldl f a) := by
  intro l
  induction l with
  | nil => intro a ha; exact ha
  | cons x t ih => intro a ha; exact ih (f a x) (h a x ha)

theorem setPlatform_station_id (st : Station) (d : Direction) (v : Option ℕ) :
    (st.setPlatform d v).station_id = st.station_id := by
  cases d <;> rfl

theorem platform_setPlatform (st : Station) (d : Direction) (v : Option ℕ) :
    (st.setPlatform d v).platform d = v := by
  cases d <;> rfl

theorem getStation_id (s : SimState) (sid : ℕ) (st : Station)
    (h : s.getStation sid = some st) : st.station_id = sid := by
  have := List.find?_some h
  simpa using this

theorem getSegment_id (s : SimState) (k : ℕ × ℕ) (sg : Segment)
    (h : s.getSegment k = some sg) : sg.segment_id = k := by
  have := List.find?_some h
  simpa using this

theorem getTrain_id (s : SimState) (tid : ℕ) (t : Train)
    (h : s.getTrain tid = some t) : t.train_id = tid := by
  have := List.find?_some h
  simpa using this

theorem alightStep_ids (sid : ℕ) (arrT : ℚ) (acc : Train × Station × ℤ)
    (d : Demand) :
    ((alightStep sid arrT acc d).1.train_id = acc.1.train_id
      ∧ (alightStep sid arrT acc d).2.1.station_id = acc.2.1.station_id) := by
  unfold alightStep
  dsimp only
  split <;> (try split) <;> (try split) <;> simp

theorem boardStep_ids (m : ℕ → Option SType) (arrT depT : ℚ)
    (acc : Train × Station × ℤ × Bool) (d : Demand) :
    ((boardStep m arrT depT acc d).1.train_id = acc.1.train_id
      ∧ (boardStep m arrT depT acc d).2.1.station_id = acc.2.1.station_id) := by
  unfold boardStep
  dsimp only
  repeat' split
  all_goals simp

/-- The exchange never changes which train and which station it operates
on: arena ids are preserved. -/
theorem exchange_ids (m : ℕ → Option SType) (tr : Train) (st : Station)
    (arrT depT : ℚ) :
    (processPassengerExchange m tr st arrT depT).2.2.1.train_id = tr.train_id
      ∧ (processPassengerExchange m tr st arrT depT).2.2.2.station_id
          = st.station_id := by
  unfold processPassengerExchange
  dsimp only
  have h1 := foldl_preserve
    (fun acc : Train × Station × ℤ =>
      acc.1.train_id = tr.train_id ∧ acc.2.1.station_id = st.station_id)
    (alightStep st.station_id arrT)
    (fun a b ha => by
      have := alightStep_ids st.station_id arrT a b
      exact ⟨this.1.trans ha.1, this.2.trans ha.2⟩)
    tr.boarded_demand (tr, st, 0) ⟨rfl, rfl⟩
  have h2 := foldl_preserve
    (fun acc : Train × Station × ℤ × Bool =>
      acc.1.train_id = tr.train_id ∧ acc.2.1.station_id = st.station_id)
    (boardStep m arrT depT)
    (fun a b ha => by
      have := boardStep_ids m arrT depT a b
      exact ⟨this.1.trans ha.1, this.2.trans ha.2⟩)
    (tr.boarded_demand.foldl (alightStep st.station_id arrT) (tr, st, 0)).2.1.waiting_demand
    ((tr.boarded_demand.foldl (alightStep st.station_id arrT) (tr, st, 0)).1,
      (tr.boarded_demand.foldl (alightStep st.station_id arrT) (tr, st, 0)).2.1, 0, false)
    ⟨h1.1, h1.2⟩
  exact ⟨h2.1, h2.2⟩

theorem alightStep_direction (sid : ℕ) (arrT : ℚ) (acc : Train × Station × ℤ)
    (d : Demand) :
    (alightStep sid arrT acc d).1.direction = acc.1.direction := by
  unfold alightStep
  dsimp only
  repeat' split
  all_goals simp

theorem boardStep_direction (m : ℕ → Option SType) (arrT depT : ℚ)
    (acc : Train × Station × ℤ × Bool) (d : Demand) :
    (boardStep m arrT depT acc d).1.direction = acc.1.direction := by
  unfold boardStep
  dsimp only
  repeat' split
  all_goals simp

/-- The exchange never changes the train's direction. -/
theorem exchange_direction (m : ℕ → Option SType) (tr : Train) (st : Station)
    (arrT depT : ℚ) :
    (processPassengerExchange m tr st arrT depT).2.2.1.direction
      = tr.direction := by
  unfold processPassengerExchange
  dsimp only
  have h1 := foldl_preserve
    (fun acc : Train × Station × ℤ => acc.1.direction = tr.direction)
    (alightStep st.station_id arrT)
    (fun a b ha => (alightStep_direction st.station_id arrT a b).trans ha)
    tr.boarded_demand (tr, st, 0) rfl
  exact foldl_preserve
    (fun acc : Train × Station × ℤ × Bool => acc.1.direction = tr.direction)
    (boardStep m arrT depT)
    (fun a b ha => (boardStep_direction m arrT depT a b).trans ha)
    _ _ h1

theorem getStation_scheduleEvent (s : SimState) (e : Event) :
    (s.scheduleEvent e).getStation = s.getStation := rfl

theorem getStation_setTrain (s : SimState) (t : Train) :
    (s.setTrain t).getStation = s.getStation := rfl

theorem getStation_setSegment (s : SimState) (sg : Segment) :
    (s.setSegment sg).getStation = s.getStation := rfl

theorem getSegment_scheduleEvent (s : SimState) (e : Event) :
    (s.scheduleEvent e).getSegment = s.getSegment := rfl

theorem getSegment_setTrain (s : SimState) (t : Train) :
    (s.setTrain t).getSegment = s.getSegment := rfl

theorem getSegment_setStation (s : SimState) (st : Station) :
    (s.setStation st).getSegment = s.getSegment := rfl

theorem getTrain_scheduleEvent (s : SimState) (e : Event) :
    (s.scheduleEvent e).getTrain = s.getTrain := rfl

theorem getTrain_setStation (s : SimState) (st : Station) :
    (s.setStation st).getTrain = s.getTrain := rfl

theorem getTrain_setSegment (s : SimState) (sg : Segment) :
    (s.setSegment sg).getTrain = s.getTrain := rfl

/-! ### C10: the unconditional platform clear on departure -/

/-- C10: on the success path of `_handle_departure` the handler assigns
`station.platforms[train.direction] = None` unconditionally (core.py:980):
the hypotheses place no constraint on the slot's prior occupant, so a
departure scheduled after a turnaround (whose train holds no platform in
its new direction) wipes whatever train occupies that slot; and a
successful `_handle_segment_enter` for the same train clears the same
slot a second time (core.py:1220). -/
theorem getStation_eq_of_stations (z w : SimState) (h : z.stations = w.stations) :
    z.getStation = w.getStation := by
  funext sid
  unfold SimState.getStation
  rw [h]

theorem getStation_set_timetables (s : SimState) (tt : List TimetableEntry) :
    ({ s with timetables := tt } : SimState).getStation = s.getStation := rfl

theorem getSegment_set_timetables (s : SimState) (tt : List TimetableEntry) :
    ({ s with timetables := tt } : SimState).getSegment = s.getSegment := rfl

theorem getTrain_set_timetables (s : SimState) (tt : List TimetableEntry) :
    ({ s with timetables := tt } : SimState).getTrain = s.getTrain := rfl

/-- C10: on the success path of `_handle_departure` the handler assigns
`station.platforms[train.direction] = None` unconditionally (core.py:980):
the hypotheses place no constraint on the slot's prior occupant, so a
departure scheduled after a turnaround (whose train holds no platform in
its new direction) wipes whatever train occupies that slot; and a
successful `_handle_segment_enter` for the same train clears the same
slot a second time (core.py:1220). -/
theorem C10_departure_and_enter_clear_platform :
    (∀ (s : SimState) (e : Event) (tr : Train) (st : Station)
        (nextSt : Station) (nextSeg : Segment),
      e.train.bind s.getTrain = some tr →
      e.station.bind s.getStation = some st →
      tr.is_active = true →
      s.getStation (if tr.direction == Direction.southbound
        then st.station_id + 1 else st.station_id - 1) = some nextSt →
      (st.getNextSegment tr.direction).bind s.getSegment = some nextSeg →
      nextSt.platform tr.direction = none →
      nextSeg.occupied_by = none →
      ((handleDeparture e s).getStation st.station_id).map
          (fun x => x.platform tr.direction) = some none)
    ∧ (∀ (s : SimState) (e : Event) (tr : Train) (sg : Segment)
        (nextSt : Station) (depSt : Station),
      e.train.bind s.getTrain = some tr →
      e.segment.bind s.getSegment = some sg →
      e.station.bind s.getStation = some nextSt →
      sg.occupied_by = none →
      tr.current_station.bind s.getStation = some depSt →
      ((handleSegmentEnter e s).getStation depSt.station_id).map
          (fun x => x.platform tr.direction) = some none) := by
  constructor
  · intro s e tr st nextSt nextSeg hTr hSt hAct hNextSt hNextSeg hPlat hSeg
    obtain ⟨sid0, hsid0⟩ : ∃ sid0, e.station = some sid0 := by
      cases h : e.station with
      | none => rw [h] at hSt; exact absurd hSt (by simp)
      | some v => exact ⟨v, rfl⟩
    rw [hsid0] at hSt
    simp only [Option.some_bind] at hSt
    have hStId : st.station_id = sid0 := getStation_id s sid0 st hSt
    have hcond : ((nextSt.platform tr.direction).isNone && nextSeg.isAvailable)
        = true := by
      rw [hPlat]
      unfold Segment.isAvailable
      rw [hSeg]
      simp
    have hnact : ¬ ((!tr.is_active) = true) := by rw [hAct]; simp
    unfold handleDeparture
    rw [hTr, hsid0]
    simp only [Option.some_bind, hSt]
    rw [if_neg hnact]
    rw [hNextSt, hNextSeg]
    simp only []
    rw [if_pos hcond]
    rw [getStation_scheduleEvent]
    set re := if st.shouldStop { tr with run_status := TrainRunStatus.active }
      then processPassengerExchange s.schemeMap
        { tr with run_status := TrainRunStatus.active } st
        (tr.arrival_time.getD 0) e.time
      else (0, 0, { tr with run_status := TrainRunStatus.active }, st) with hre
    have hrIds : re.2.2.1.train_id = tr.train_id
        ∧ re.2.2.2.station_id = st.station_id := by
      rw [hre]
      split
      · exact exchange_ids _ _ _ _ _
      · exact ⟨rfl, rfl⟩
    have hkey : st.station_id
        = ((re.2.2.2).setPlatform
            ({ re.2.2.1 with
                last_departure_time := some e.time
                current_journey_travel_time := 0 }).direction none).station_id := by
      rw [setPlatform_station_id, hrIds.2]
    have hdir : ({ re.2.2.1 with
        last_departure_time := some e.time
        current_journey_travel_time := 0 } : Train).direction
          = re.2.2.1.direction := rfl
    rw [hkey, getStation_setStation, getStation_setTrain,
      getStation_set_timetables]
    rw [← hkey, hStId, hSt]
    have hdir2 : re.2.2.1.direction = tr.direction := by
      rw [hre]
      split
      · exact exchange_direction _ _ _ _ _
      · rfl
    simp only [Option.map_some']
    rw [hdir, hdir2, platform_setPlatform]
  · intro s e tr sg nextSt depSt hTr hSg hSt hFree hDep
    obtain ⟨csid, hcsid⟩ : ∃ c, tr.current_station = some c := by
      cases h : tr.current_station with
      | none => rw [h] at hDep; exact absurd hDep (by simp)
      | some v => exact ⟨v, rfl⟩
    rw [hcsid] at hDep
    simp only [Option.some_bind] at hDep
    have hDepId : depSt.station_id = csid := getStation_id s csid depSt hDep
    obtain ⟨k0, hk0⟩ : ∃ k, e.segment = some k := by
      cases h : e.segment with
      | none => rw [h] at hSg; exact absurd hSg (by simp)
      | some v => exact ⟨v, rfl⟩
    rw [hk0] at hSg
    simp only [Option.some_bind] at hSg
    have hSgId : sg.segment_id = k0 := getSegment_id s k0 sg hSg
    have hEnter : (sg.enter tr.train_id e.time).1 = true := by
      unfold Segment.enter
      rw [if_pos hFree]
    have hEnterId : (sg.enter tr.train_id e.time).2.segment_id
        = sg.segment_id := by
      unfold Segment.enter
      rw [if_pos hFree]
    unfold handleSegmentEnter
    rw [hTr, hk0]
    simp only [Option.some_bind, hSg, hSt]
    rw [hEnter]
    simp only [if_pos (rfl : (true : Bool) = true)]
    rw [hcsid]
    simp only [getStation_setSegment, Option.some_bind, hDep]
    have hscrut : ((s.setSegment (sg.enter tr.train_id e.time).2).setStation
        (depSt.setPlatform tr.direction none)).getSegment sg.segment_id
          = some ((sg.enter tr.train_id e.time).2) := by
      rw [getSegment_setStation, ← hEnterId, getSegment_setSegment,
        hEnterId, hSgId, hSg]
      simp
    simp only [if_true]
    rw [getStation_scheduleEvent, hscrut]
    simp only []
    rw [getStation_setTrain, getStation_setSegment]
    have hkey : depSt.station_id
        = (depSt.setPlatform tr.direction none).station_id := by
      rw [setPlatform_station_id]
    rw [hkey, getStation_setStation]
    simp only [getStation_setSegment, ← hkey]
    rw [hDepId, hDep]
    simp only [Option.map_some']
    rw [platform_setPlatform]

/-- A two-station state in which train 1 is about to depart station 1
southbound while the station-1 southbound platform slot is held by train
2 (the post-turnaround shape: the departing train holds no platform in
its new direction). -/
def c10St1 : Station :=
  { station_id := 1, station_type := .AB, is_terminus := true
    waiting_demand := [], track_north := none, track_south := some (1, 2)
    platform_north := none, platform_south := some 2 }

def c10St2 : Station :=
  { station_id := 2, station_type := .AB, is_terminus := true
    waiting_demand := [], track_north := some (2, 1), track_south := none
    platform_north := none, platform_south := none }

def c10Seg : Segment :=
  { segment_id := (1, 2), start_station_id := 1, end_station_id := 2
    distance := 1000, direction := .southbound }

def c10Train : Train := mkTrain 1 100 72 1 1 .AB (some 1)

def c10Train2 : Train := mkTrain 2 100 72 1 1 .AB (some 1)

def c10State : SimState :=
  { stations := [c10St1, c10St2]
    segments := [c10Seg]
    trains := [c10Train, c10Train2]
    queue := []
    active_trains := [1, 2]
    active_headway := 3
    trains_to_withdraw := 0
    current_time := 0
    dwell_time := 30
    turnaround_time := 60
    end_time := 100000
    scheme_regular := true
    periods := []
    timetables := [] }

def c10DepEvent : Event := evt 300 .train_departure (some 1) (some 1) none

def c10EnterEvent : Event := evt 300 .segment_enter (some 1) (some 2) (some (1, 2))

set_option maxRecDepth 40000 in
/-- Witness for C10: in `c10State` the station-1 southbound slot holds
train 2, yet both the departure handler and the segment-enter handler for
train 1 set it to `None`. -/
theorem C10_witness :
    (c10State.getStation 1).map (fun x => x.platform Direction.southbound)
        = some (some 2)
    ∧ ((handleDeparture c10DepEvent c10State).getStation 1).map
        (fun x => x.platform Direction.southbound) = some none
    ∧ ((handleSegmentEnter c10EnterEvent c10State).getStation 1).map
        (fun x => x.platform Direction.southbound) = some none := by
  refine ⟨by with_unfolding_all decide, ?_, ?_⟩
  · exact C10_departure_and_enter_clear_platform.1 c10State c10DepEvent
      c10Train c10St1 c10St2 c10Seg
      (by with_unfolding_all decide) (by with_unfolding_all decide)
      (by with_unfolding_all decide) (by with_unfolding_all decide)
      (by with_unfolding_all decide) (by with_unfolding_all decide)
      (by with_unfolding_all decide)
  · exact C10_departure_and_enter_clear_platform.2 c10State c10EnterEvent
      c10Train c10Seg c10St2 c10St1
      (by with_unfolding_all decide) (by with_unfolding_all decide)
      (by with_unfolding_all decide) (by with_unfolding_all decide)
      (by with_unfolding_all decide)

/-! ### C7: the is_active gate -/

/-- A state whose train 1 has been withdrawn (`is_active = False`) while
still referenced by queued events: it occupies segment (2,1) with a
pending `segment_exit`. -/
def c7Train : Train :=
  { mkTrain 1 100 72 1 1 .AB (some 2) with
      is_active := false, direction := .northbound }

def c7Seg : Segment :=
  { segment_id := (2, 1), start_station_id := 2, end_station_id := 1
    distance := 1000, direction := .northbound, occupied_by := some 1 }

def c7State : SimState :=
  { stations := [c10St1, c10St2]
    segments := [c7Seg]
    trains := [c7Train]
    queue := []
    active_trains := []
    active_headway := 3
    trains_to_withdraw := 0
    current_time := 0
    dwell_time := 30
    turnaround_time := 60
    end_time := 100000
    scheme_regular := true
    periods := []
    timetables := [] }

def c7ExitEvent : Event := evt 500 .segment_exit (some 1) (some 1) (some (2, 1))

def c7ArrEvent : Event := evt 500 .train_arrival (some 1) (some 1) none

set_option maxRecDepth 40000 in
/-- Counterexample to C7 as stated: `_handle_segment_exit` and
`_handle_arrival` do not check `is_active` (core.py:1304-1320, 666-758).
For the withdrawn train 1, the segment-exit handler frees the segment and
schedules a `train_arrival`, and the arrival handler occupies the
platform and schedules a follow-up event — both far from "returns without
any effect on simulation state". -/
theorem C7_counterexample :
    (c7State.getTrain 1).map (fun t => t.is_active) = some false
    ∧ ((handleSegmentExit c7ExitEvent c7State).getSegment (2, 1)).map
        (fun sg => sg.occupied_by) = some none
    ∧ (handleSegmentExit c7ExitEvent c7State).queue
        = [evt 500 .train_arrival (some 1) (some 1) none]
    ∧ ((handleArrival c7ArrEvent c7State).getStation 1).map
        (fun st => st.platform Direction.northbound) = some (some 1)
    ∧ (handleArrival c7ArrEvent c7State).queue
        = [evt 530 .turnaround (some 1) (some 1) none] := by
  with_unfolding_all decide

/-- C7 amended: only the `train_departure` and `turnaround` handlers
check the train's `is_active` flag and return without effect
(core.py:941-943, 1150-1153); the `train_arrival`, `segment_enter`,
`segment_exit` and `train_insertion` handlers process events for
withdrawn trains normally (see the counterexample). -/
theorem C7_amended_inactive_gate :
    (∀ (s : SimState) (e : Event) (tr : Train),
      e.train.bind s.getTrain = some tr → tr.is_active = false →
      handleDeparture e s = s)
    ∧ (∀ (s : SimState) (e : Event) (tr : Train),
      e.train.bind s.getTrain = some tr → tr.is_active = false →
      handleTurnaround e s = s) := by
  constructor
  · intro s e tr hTr hInact
    unfold handleDeparture
    rw [hTr]
    cases hSt : e.station.bind s.getStation with
    | none => simp
    | some st => simp [hInact]
  · intro s e tr hTr hInact
    unfold handleTurnaround
    rw [hTr]
    cases hSt : e.station.bind s.getStation with
    | none => simp
    | some st => simp [hInact]

set_option maxRecDepth 40000 in
/-- Witness for the amended C7 at the concrete withdrawn-train state. -/
theorem C7_amended_witness :
    handleDeparture (evt 500 .train_departure (some 1) (some 1) none) c7State
        = c7State
    ∧ handleTurnaround (evt 500 .turnaround (some 1) (some 1) none) c7State
        = c7State :=
  ⟨C7_amended_inactive_gate.1 c7State _ c7Train
      (by with_unfolding_all decide) (by with_unfolding_all decide),
    C7_amended_inactive_gate.2 c7State _ c7Train
      (by with_unfolding_all decide) (by with_unfolding_all decide)⟩

/-! ### C6: loop detection resets the whole queue -/

theorem getEventByType_setTrain (s : SimState) (t : Train) :
    (s.setTrain t).getEventByType = s.getEventByType := rfl

/-- A state in which a `train_insertion` reschedule computes the same
timestamp as the current event: the depot segment (2,1) is occupied with
no `segment_exit` event in the queue, and the active headway is 0 (which
`custom_round` produces whenever loop minutes / train count ≤ 1/2, e.g.
19 trains on a short loop).  The queue holds an unrelated pending
event. -/
def c6Train : Train := mkTrain 1 100 72 1 1 .AB (some 1)

def c6Train2 : Train := mkTrain 2 100 72 1 1 .AB (some 1)

def c6Seg : Segment :=
  { segment_id := (2, 1), start_station_id := 2, end_station_id := 1
    distance := 1000, direction := .northbound, occupied_by := some 2 }

def c6Pending : Event := evt 900 .turnaround (some 2) (some 1) none

def c6State : SimState :=
  { stations := [c10St1, c10St2]
    segments := [c6Seg]
    trains := [c6Train, c6Train2]
    queue := [c6Pending]
    active_trains := [2]
    active_headway := 0
    trains_to_withdraw := 0
    current_time := 0
    dwell_time := 30
    turnaround_time := 60
    end_time := 100000
    scheme_regular := true
    periods := []
    timetables := [] }

def c6Event : Event := evt 700 .train_insertion (some 1) none (some (2, 1))

set_option maxRecDepth 40000 in
/-- Counterexample to C6: when the `train_insertion` reschedule computes
the identical timestamp, `_handle_insertion` replaces the event queue by
a fresh `PriorityQueue()` (core.py:930), dropping the unrelated pending
event (and the reschedule itself) — the remainder of the queue is not
preserved. -/
theorem C6_counterexample :
    c6State.queue = [c6Pending]
    ∧ (handleInsertion c6Event c6State).queue = [] := by
  with_unfolding_all decide

/-- C6 amended: if a `train_insertion` reschedule computes a timestamp
identical to the current event's time (here via the fallback path: the
depot segment is held, no `segment_exit` event is queued for it, and the
adaptive headway is zero), the handler resets the entire event queue to
empty (core.py:919-930) — every pending event is dropped, including the
reschedule just pushed, and the run then stops at the next loop
iteration because the queue is empty. -/
theorem C6_amended_queue_reset :
    ∀ (s : SimState) (e : Event) (tr : Train) (seg : Segment),
      e.train.bind s.getTrain = some tr →
      e.segment.bind s.getSegment = some seg →
      s.getEventByType .segment_enter none (some seg.segment_id) = none →
      (match s.getStation 1 with
        | some st1 => (st1.platform Direction.northbound).isSome
        | none => false) = false →
      seg.occupied_by ≠ none →
      s.getEventByType .segment_exit none (some seg.segment_id) = none →
      s.active_headway * (congestionMetrics s).multiplier = 0 →
      (handleInsertion e s).queue = [] := by
  intro s e tr seg hTr hSg hNoEnter hPlat hOcc hNoExit hZero
  have hRes : seg.enter tr.train_id e.time = (false, seg) := by
    unfold Segment.enter
    rw [if_neg hOcc]
  unfold handleInsertion
  rw [hTr, hSg]
  simp only [hNoEnter, hPlat]
  simp only [Bool.false_eq_true, if_neg (by simp : ¬ (False : Prop))]
  simp only [getEventByType_setTrain, hNoExit, hRes, hZero]
  simp [qeq]

set_option maxRecDepth 40000 in
/-- Witness for the amended C6 at the concrete state: the queue is
reset. -/
theorem C6_amended_witness : (handleInsertion c6Event c6State).queue = [] :=
  C6_amended_queue_reset c6State c6Event c6Train c6Seg
    (by with_unfolding_all decide) (by with_unfolding_all decide)
    (by with_unfolding_all decide) (by with_unfolding_all decide)
    (by with_unfolding_all decide) (by with_unfolding_all decide)
    (by with_unfolding_all decide)

/-! ### C8: current_station during traversal and the congestion factor -/

/-- The state of the REGULAR-scheme run after 7 pops: train 1 has just
entered segment (1,2). -/
def c8State : SimState := runSim 7 (initSim cexRegConfig)

set_option maxRecDepth 400000 in
/-- Counterexample to C8: in a reachable state train 1 occupies segment
(1,2), yet its `current_station` still points at station 1 (no handler
ever sets it to `None`; it is only reassigned at the next arrival,
core.py:728), and the congestion factor computed by
`_calculate_system_congestion_metrics` — which counts active trains with
`current_station is None` (core.py:1334-1342) — evaluates to 0, not to
(trains in segments) / max(active trains, 1) = 1/1. -/
theorem C8_counterexample :
    (c8State.getSegment (1, 2)).map (fun sg => sg.occupied_by) = some (some 1)
    ∧ (c8State.getTrain 1).map (fun t => t.current_station) = some (some 1)
    ∧ c8State.active_trains = [1]
    ∧ (congestionMetrics c8State).segment_congestion = 0 := by
  with_unfolding_all decide

/-- C8 amended: a successful `segment_enter` leaves the train's
`current_station` unchanged — the reference is never nulled during
traversal — and consequently the congestion factor, which divides the
count of active trains with a null `current_station` by
max(active trains, 1), evaluates to 0 whenever every active train has a
station reference. -/
theorem C8_amended_current_station_not_nulled :
    (∀ (s : SimState) (e : Event) (tr : Train) (sg : Segment)
        (nextSt : Station) (depSt : Station),
      e.train.bind s.getTrain = some tr →
      e.segment.bind s.getSegment = some sg →
      e.station.bind s.getStation = some nextSt →
      sg.occupied_by = none →
      tr.current_station.bind s.getStation = some depSt →
      ((handleSegmentEnter e s).getTrain tr.train_id).map
          (fun t => t.current_station) = some tr.current_station)
    ∧ (∀ s : SimState,
      (∀ t ∈ s.active_trains.filterMap s.getTrain, t.current_station ≠ none) →
      (congestionMetrics s).segment_congestion = 0) := by
  constructor
  · intro s e tr sg nextSt depSt hTr hSg hSt hFree hDep
    obtain ⟨tid0, htid0⟩ : ∃ t0, e.train = some t0 := by
      cases h : e.train with
      | none => rw [h] at hTr; exact absurd hTr (by simp)
      | some v => exact ⟨v, rfl⟩
    rw [htid0] at hTr
    simp only [Option.some_bind] at hTr
    have hTrId : tr.train_id = tid0 := getTrain_id s tid0 tr hTr
    obtain ⟨csid, hcsid⟩ : ∃ c, tr.current_station = some c := by
      cases h : tr.current_station with
      | none => rw [h] at hDep; exact absurd hDep (by simp)
      | some v => exact ⟨v, rfl⟩
    rw [hcsid] at hDep
    simp only [Option.some_bind] at hDep
    obtain ⟨k0, hk0⟩ : ∃ k, e.segment = some k := by
      cases h : e.segment with
      | none => rw [h] at hSg; exact absurd hSg (by simp)
      | some v => exact ⟨v, rfl⟩
    rw [hk0] at hSg
    simp only [Option.some_bind] at hSg
    have hSgId : sg.segment_id = k0 := getSegment_id s k0 sg hSg
    have hEnter : (sg.enter tr.train_id e.time).1 = true := by
      unfold Segment.enter
      rw [if_pos hFree]
    have hEnterId : (sg.enter tr.train_id e.time).2.segment_id
        = sg.segment_id := by
      unfold Segment.enter
      rw [if_pos hFree]
    unfold handleSegmentEnter
    rw [htid0, hk0]
    simp only [Option.some_bind, hTr, hSg, hSt]
    rw [hEnter]
    simp only [if_pos (rfl : (true : Bool) = true)]
    rw [hcsid]
    simp only [getStation_setSegment, Option.some_bind, hDep]
    have hscrut : ((s.setSegment (sg.enter tr.train_id e.time).2).setStation
        (depSt.setPlatform tr.direction none)).getSegment sg.segment_id
          = some ((sg.enter tr.train_id e.time).2) := by
      rw [getSegment_setStation, ← hEnterId, getSegment_setSegment,
        hEnterId, hSgId, hSg]
      simp
    simp only [if_true]
    rw [getTrain_scheduleEvent, hscrut]
    simp only []
    rw [getTrain_setTrain]
    simp only [getTrain_setSegment, getTrain_setStation]
    rw [hTrId, hTr]
    simp [hcsid]
  · intro s h
    unfold congestionMetrics
    simp only []
    have hcount : (s.active_trains.filterMap s.getTrain).countP
        (fun t => t.current_station == none) = 0 := by
      rw [List.countP_eq_zero]
      intro t ht
      have := h t ht
      simpa using this
    rw [hcount]
    simp

set_option maxRecDepth 40000 in
/-- Witness for the amended C8 at the concrete two-station state. -/
theorem C8_amended_witness :
    ((handleSegmentEnter c10EnterEvent c10State).getTrain 1).map
        (fun t => t.current_station) = some (some 1)
    ∧ (congestionMetrics c10State).segment_congestion = 0 := by
  constructor
  · have h := C8_amended_current_station_not_nulled.1 c10State c10EnterEvent
      c10Train c10Seg c10St2 c10St1
      (by with_unfolding_all decide) (by with_unfolding_all decide)
      (by with_unfolding_all decide) (by with_unfolding_all decide)
      (by with_unfolding_all decide)
    exact h.trans (by with_unfolding_all decide)
  · exact C8_amended_current_station_not_nulled.2 c10State
      (by with_unfolding_all decide)

/-! ### C2: platform exclusivity -/

/-- The state of the REGULAR-scheme run `cexRegConfig` after 43 pops:
train 1 arrived northbound at station 1 at t = 20074 and holds the
northbound platform until its turnaround at t = 20224; train 2 was
inserted into the depot segment at t = 20100 (the insertion handler found
no pending `train_departure` for station 1 and therefore ignored the
occupied platform, core.py:807-839) and its arrival at t = 20160 is the
next event in the queue. -/
def c2State : SimState := runSim 43 (initSim cexRegConfig)

set_option maxRecDepth 1000000 in
/-- Counterexample to C2: in a reachable state of the run, a
`train_arrival` places train 2 on the station-1 northbound platform while
that platform is still occupied by the active train 1 (whose turnaround
is pending at t = 20224 > 20160): `_handle_arrival` assigns
`platforms[direction] = train` unconditionally (core.py:731), so two
trains occupy one platform at every instant in [20160, 20224). -/
theorem C2_counterexample :
    (selectMin c2State.queue).map
        (fun p => (p.1.etype, p.1.train, p.1.station, qeq p.1.time 20160))
      = some (.train_arrival, some 2, some 1, true)
    ∧ (c2State.getStation 1).map (fun st => st.platform_north) = some (some 1)
    ∧ (c2State.getTrain 1).map
        (fun t => (t.is_active, t.current_station, t.direction))
      = some (true, some 1, .northbound)
    ∧ c2State.queue.any (fun ev => ev.etype == .turnaround
        && ev.train == some 1 && ev.station == some 1
        && qeq ev.time 20224) = true
    ∧ ((runSim 44 (initSim cexRegConfig)).getStation 1).map
        (fun st => st.platform_north) = some (some 2) := by
  with_unfolding_all decide

/-- C2 amended: the departure gate itself holds — `_handle_departure`
moves a train (clearing its platform and scheduling `segment_enter`) only
when the next station's platform in the train's direction is empty and
the next segment is free; when either resource is held it leaves
stations, segments and trains untouched and only appends one rescheduled
`train_departure` (core.py:950,:992-1141).  The claimed consequence is
false: `train_insertion` does not re-check the station-1 platform when
the occupant has no pending departure event, so an arrival can still
place a train on an occupied platform (see the counterexample). -/
theorem C2_amended_departure_gate :
    ∀ (s : SimState) (e : Event) (tr : Train) (st : Station)
      (nextSt : Station) (nextSeg : Segment),
      e.train.bind s.getTrain = some tr →
      e.station.bind s.getStation = some st →
      tr.is_active = true →
      s.getStation (if tr.direction == Direction.southbound
        then st.station_id + 1 else st.station_id - 1) = some nextSt →
      (st.getNextSegment tr.direction).bind s.getSegment = some nextSeg →
      ¬ (nextSt.platform tr.direction = none ∧ nextSeg.occupied_by = none) →
      (handleDeparture e s).stations = s.stations
      ∧ (handleDeparture e s).segments = s.segments
      ∧ (handleDeparture e s).trains = s.trains
      ∧ ∃ t', (handleDeparture e s).queue = s.queue
          ++ [evt t' .train_departure (some tr.train_id) (some st.station_id) none] := by
  intro s e tr st nextSt nextSeg hTr hSt hAct hNextSt hNextSeg hGate
  have hnact : ¬ ((!tr.is_active) = true) := by rw [hAct]; simp
  have hcond : ¬ (((nextSt.platform tr.direction).isNone
      && nextSeg.isAvailable) = true) := by
    intro hc
    apply hGate
    constructor
    · have h1 := (Bool.and_eq_true _ _).mp hc |>.1
      cases hpv : nextSt.platform tr.direction with
      | none => rfl
      | some v => rw [hpv] at h1; simp at h1
    · have h2 := (Bool.and_eq_true _ _).mp hc |>.2
      unfold Segment.isAvailable at h2
      simpa using h2
  have hdisj : (nextSeg.occupied_by.isSome
      || (nextSt.platform tr.direction).isSome) = true := by
    by_contra hne
    apply hGate
    have h1 := (Bool.or_eq_false_iff).mp (Bool.eq_false_iff.mpr hne)
    constructor
    · cases hpv : nextSt.platform tr.direction with
      | none => rfl
      | some v => rw [hpv] at h1; simp at h1
    · cases hov : nextSeg.occupied_by with
      | none => rfl
      | some v => rw [hov] at h1; simp at h1
  obtain ⟨sid0, hsid0⟩ : ∃ sid0, e.station = some sid0 := by
    cases h : e.station with
    | none => rw [h] at hSt; exact absurd hSt (by simp)
    | some v => exact ⟨v, rfl⟩
  rw [hsid0] at hSt
  simp only [Option.some_bind] at hSt
  unfold handleDeparture
  rw [hTr, hsid0]
  simp only [Option.some_bind, hSt]
  rw [if_neg hnact]
  rw [hNextSt, hNextSeg]
  simp only []
  rw [if_neg hcond]
  rw [if_pos hdisj]
  split <;> split <;> exact ⟨rfl, rfl, rfl, _, rfl⟩

/-- A state in which train 1 cannot depart station 1: the next platform
(station 2, southbound) is occupied by train 2. -/
def c2wSt2 : Station := { c10St2 with platform_south := some 2 }

def c2wState : SimState :=
  { c10State with stations := [{ c10St1 with platform_south := none }, c2wSt2] }

set_option maxRecDepth 40000 in
/-- Witness for the amended C2 at the concrete blocked-departure state. -/
theorem C2_amended_witness :
    (handleDeparture c10DepEvent c2wState).stations = c2wState.stations
    ∧ (handleDeparture c10DepEvent c2wState).segments = c2wState.segments
    ∧ (handleDeparture c10DepEvent c2wState).trains = c2wState.trains
    ∧ ∃ t', (handleDeparture c10DepEvent c2wState).queue = c2wState.queue
        ++ [evt t' .train_departure (some 1) (some 1) none] :=
  C2_amended_departure_gate c2wState c10DepEvent c10Train
    { c10St1 with platform_south := none } c2wSt2 c10Seg
    (by with_unfolding_all decide) (by with_unfolding_all decide)
    (by with_unfolding_all decide) (by with_unfolding_all decide)
    (by with_unfolding_all decide) (by with_unfolding_all decide)

/-! ### C3/C4: passenger exchange -/

/-- Total passenger count of a list of demand groups. -/
def demandSum (l : List Demand) : ℤ := (l.map Demand.passenger_count).sum

/-- Scenario-E style group: 15 passengers waiting at origin station 0 for
a direct southbound trip to station 1. -/
def c3wDemand : Demand :=
  { did := 7
    origin_station_id := 0
    destination_station_id := 1
    arrival_time := 0
    passenger_count := 15
    trip_type := .DIRECT
    direction := some .southbound }

/-- Station 0 with the Scenario-E group waiting. -/
def c3wStation : Station :=
  { station_id := 0
    waiting_demand := [c3wDemand] }

/-- Boarding bookkeeping never alters the group's size (core.py:306-318
only touch times, status and train_id). -/
theorem boardUpdate_passenger_count (d : Demand) (arrT depT : ℚ) (tid : ℕ) :
    (d.boardUpdate arrT depT tid).passenger_count = d.passenger_count := by
  unfold Demand.boardUpdate
  dsimp only
  split
  · rfl
  · split <;> rfl

set_option maxRecDepth 4000 in
/-- C3: a compatible waiting group boards iff the whole group fits.  When
`passenger_count ≤ capacity - current_passenger_count` the entire group
moves (appended to `boarded_demand`, erased from `waiting_demand`) and the
occupancy rises by exactly the group's count; when the train is full the
loop stops with everything unchanged; when the group is larger than the
remaining space (min(available, count) < count, core.py:305-327's
unimplemented partial branch) the group stays in the waiting list and the
train is unchanged — a group of 15 never boards a train with 10 free
spaces. -/
theorem C3_whole_group_boarding :
    ∀ (m : ℕ → Option SType) (arrT depT : ℚ) (tr : Train) (st : Station)
      (boarded : ℤ) (d : Demand),
      boardCond m st tr depT d = true →
      0 < d.passenger_count →
      (d.passenger_count ≤ tr.capacity - tr.current_passenger_count →
        boardStep m arrT depT (tr, st, boarded, false) d
          = ({ tr with
                boarded_demand := tr.boarded_demand
                  ++ [d.boardUpdate arrT depT tr.train_id]
                current_passenger_count :=
                  tr.current_passenger_count + d.passenger_count },
             { st with waiting_demand :=
                  st.waiting_demand.eraseP (fun x => x.did == d.did) },
             boarded + d.passenger_count, false))
      ∧ (tr.capacity - tr.current_passenger_count ≤ 0 →
        boardStep m arrT depT (tr, st, boarded, false) d
          = (tr, st, boarded, true))
      ∧ (0 < tr.capacity - tr.current_passenger_count →
        tr.capacity - tr.current_passenger_count < d.passenger_count →
        boardStep m arrT depT (tr, st, boarded, false) d
          = (tr, st, boarded, false)) := by
  intro m arrT depT tr st boarded d hc hpos
  refine ⟨?_, ?_, ?_⟩
  · intro hfit
    have hav : ¬ (tr.capacity - tr.current_passenger_count ≤ 0) := by omega
    have hmin : min (tr.capacity - tr.current_passenger_count)
        d.passenger_count = d.passenger_count := min_eq_right hfit
    have hn : (0 : ℤ) < min (tr.capacity - tr.current_passenger_count)
        d.passenger_count := by rw [hmin]; exact hpos
    unfold boardStep
    dsimp only
    rw [if_neg (by simp), if_pos hc, if_neg hav, if_pos hn,
      if_pos (beq_iff_eq.mpr hmin), hmin]
  · intro hfull
    unfold boardStep
    dsimp only
    rw [if_neg (by simp), if_pos hc, if_pos hfull]
  · intro hroom hbig
    have hav : ¬ (tr.capacity - tr.current_passenger_count ≤ 0) := by omega
    have hmin : min (tr.capacity - tr.current_passenger_count)
        d.passenger_count = tr.capacity - tr.current_passenger_count :=
      min_eq_left (le_of_lt hbig)
    have hne : ¬ ((min (tr.capacity - tr.current_passenger_count)
        d.passenger_count == d.passenger_count) = true) := by
      rw [hmin]
      intro hcontra
      exact absurd (beq_iff_eq.mp hcontra) (by omega)
    have hn : (0 : ℤ) < min (tr.capacity - tr.current_passenger_count)
        d.passenger_count := by rw [hmin]; exact hroom
    unfold boardStep
    dsimp only
    rw [if_neg (by simp), if_pos hc, if_neg hav, if_pos hn, if_neg hne]

set_option maxRecDepth 4000 in
/-- Witness for C3 at Scenario-E style numbers: a train with capacity 10
and 0 passengers, a compatible direct group of 15 at station 0; the
instantiated gate says the group boards iff 15 fits (it does not: the
second conjunct is vacuous and the third sends it back unchanged). -/
theorem C3_witness :
    (15 ≤ (mkTrain 1 10 72 1 1 .AB none).capacity
        - (mkTrain 1 10 72 1 1 .AB none).current_passenger_count →
      boardStep (fun _ => some SType.AB) 0 10
        (mkTrain 1 10 72 1 1 .AB none, c3wStation, 0, false) c3wDemand
        = ({ mkTrain 1 10 72 1 1 .AB none with
              boarded_demand := (mkTrain 1 10 72 1 1 .AB none).boarded_demand
                ++ [c3wDemand.boardUpdate 0 10 (mkTrain 1 10 72 1 1 .AB none).train_id]
              current_passenger_count :=
                (mkTrain 1 10 72 1 1 .AB none).current_passenger_count + 15 },
           { c3wStation with waiting_demand :=
                c3wStation.waiting_demand.eraseP (fun x => x.did == c3wDemand.did) },
           0 + 15, false))
    ∧ ((mkTrain 1 10 72 1 1 .AB none).capacity
        - (mkTrain 1 10 72 1 1 .AB none).current_passenger_count ≤ 0 →
      boardStep (fun _ => some SType.AB) 0 10
        (mkTrain 1 10 72 1 1 .AB none, c3wStation, 0, false) c3wDemand
        = (mkTrain 1 10 72 1 1 .AB none, c3wStation, 0, true))
    ∧ (0 < (mkTrain 1 10 72 1 1 .AB none).capacity
        - (mkTrain 1 10 72 1 1 .AB none).current_passenger_count →
      (mkTrain 1 10 72 1 1 .AB none).capacity
        - (mkTrain 1 10 72 1 1 .AB none).current_passenger_count < 15 →
      boardStep (fun _ => some SType.AB) 0 10
        (mkTrain 1 10 72 1 1 .AB none, c3wStation, 0, false) c3wDemand
        = (mkTrain 1 10 72 1 1 .AB none, c3wStation, 0, false)) :=
  C3_whole_group_boarding (fun _ => some SType.AB) 0 10
    (mkTrain 1 10 72 1 1 .AB none) c3wStation 0 c3wDemand
    (by with_unfolding_all decide) (by with_unfolding_all decide)

theorem demandSum_nil : demandSum [] = 0 := rfl

theorem demandSum_cons (x : Demand) (t : List Demand) :
    demandSum (x :: t) = x.passenger_count + demandSum t := by
  unfold demandSum
  rw [List.map_cons, List.sum_cons]

theorem demandSum_append (l₁ l₂ : List Demand) :
    demandSum (l₁ ++ l₂) = demandSum l₁ + demandSum l₂ := by
  unfold demandSum
  rw [List.map_append, List.sum_append]

/-- A sublist whose elements all fail the predicate survives `eraseP`. -/
theorem sublist_eraseP_of_none {l' l : List Demand} {p : Demand → Bool}
    (h : l'.Sublist l) (hn : ∀ x ∈ l', p x = false) :
    l'.Sublist (l.eraseP p) := by
  induction h with
  | slnil => simp
  | cons a h ih =>
    by_cases hp : p a = true
    · rw [List.eraseP_cons, hp]
      exact h
    · rw [List.eraseP_cons, Bool.eq_false_iff.mpr hp]
      exact (ih hn).cons a
  | cons₂ a h ih =>
    have hpa : p a = false := hn a (List.mem_cons_self a _)
    rw [List.eraseP_cons, hpa]
    exact (ih fun x hx => hn x (List.mem_cons_of_mem a hx)).cons₂ a

/-- Removing the unique group with `d`'s id subtracts exactly `d`'s
count (this is `list.remove(demand)` in the alight loop,
core.py:263). -/
theorem demandSum_eraseP_did {l : List Demand} {d : Demand}
    (hnd : (l.map Demand.did).Nodup) (hmem : d ∈ l) :
    demandSum (l.eraseP (fun x => x.did == d.did))
      = demandSum l - d.passenger_count := by
  induction l with
  | nil => cases hmem
  | cons x t ih =>
    rw [List.map_cons, List.nodup_cons] at hnd
    by_cases hx : (x.did == d.did) = true
    · rcases List.mem_cons.mp hmem with hdx | hdt
      · rw [List.eraseP_cons, hx, cond_true, demandSum_cons, hdx]
        omega
      · exact absurd (by rw [beq_iff_eq.mp hx]
                         exact List.mem_map_of_mem Demand.did hdt) hnd.1
    · have hdt : d ∈ t := by
        rcases List.mem_cons.mp hmem with hdx | hdt
        · exact absurd (beq_iff_eq.mpr (by rw [hdx])) hx
        · exact hdt
      rw [List.eraseP_cons, Bool.eq_false_iff.mpr hx, cond_false,
        demandSum_cons, demandSum_cons, ih hnd.2 hdt]
      omega

/-- The alight loop (core.py:237-263) preserves the occupancy equality
and the capacity bound: each alighting branch erases exactly the
processed group (ids being distinct) and decrements the counter by its
count. -/
theorem alight_fold_ok (sid : ℕ) (arrT : ℚ) :
    ∀ (rest : List Demand) (tr : Train) (st : Station) (a : ℤ),
      rest.Sublist tr.boarded_demand →
      (tr.boarded_demand.map Demand.did).Nodup →
      (∀ x ∈ tr.boarded_demand, 0 ≤ x.passenger_count) →
      demandSum tr.boarded_demand = tr.current_passenger_count →
      tr.current_passenger_count ≤ tr.capacity →
      demandSum (rest.foldl (alightStep sid arrT) (tr, st, a)).1.boarded_demand
        = (rest.foldl (alightStep sid arrT) (tr, st, a)).1.current_passenger_count
      ∧ (rest.foldl (alightStep sid arrT) (tr, st, a)).1.current_passenger_count
        ≤ (rest.foldl (alightStep sid arrT) (tr, st, a)).1.capacity
      ∧ (rest.foldl (alightStep sid arrT) (tr, st, a)).1.capacity
        = tr.capacity := by
  intro rest
  induction rest with
  | nil => intro tr st a _ _ _ hsum hcap; exact ⟨hsum, hcap, rfl⟩
  | cons d rest ih =>
    intro tr st a hsub hnd hpos hsum hcap
    rw [List.foldl_cons]
    have hdmem : d ∈ tr.boarded_demand := hsub.subset (List.mem_cons_self _ _)
    have hrest : rest.Sublist tr.boarded_demand :=
      List.sublist_of_cons_sublist hsub
    have hddid : ∀ x ∈ rest, (x.did == d.did) = false := by
      intro x hx
      have h1 : (d.did :: rest.map Demand.did).Nodup :=
        List.Nodup.sublist (by simpa using hsub.map Demand.did) hnd
    -- d's id does not recur in the rest of the snapshot
      exact beq_eq_false_iff_ne.mpr fun hxe =>
        (List.nodup_cons.mp h1).1 (hxe ▸ List.mem_map_of_mem Demand.did hx)
    have hsum' : demandSum (tr.boarded_demand.eraseP (fun x => x.did == d.did))
        = tr.current_passenger_count - d.passenger_count := by
      rw [demandSum_eraseP_did hnd hdmem, hsum]
    have hnd' : ((tr.boarded_demand.eraseP
        (fun x => x.did == d.did)).map Demand.did).Nodup :=
      List.Nodup.sublist ((List.eraseP_sublist _).map _) hnd
    have hpos' : ∀ x ∈ tr.boarded_demand.eraseP (fun y => y.did == d.did),
        0 ≤ x.passenger_count :=
      fun x hx => hpos x ((List.eraseP_sublist _).subset hx)
    have hcap' : tr.current_passenger_count - d.passenger_count
        ≤ tr.capacity := by
      have := hpos d hdmem
      omega
    have hsub' : rest.Sublist (tr.boarded_demand.eraseP
        (fun x => x.did == d.did)) := sublist_eraseP_of_none hrest hddid
    unfold alightStep
    dsimp only
    by_cases h1 : (d.trip_type == TripType.DIRECT
        && d.destination_station_id == sid) = true
    · rw [if_pos h1]
      apply ih
      · exact hsub'
      · exact hnd'
      · exact hpos'
      · exact hsum'
      · exact hcap'
    · rw [if_neg h1]
      by_cases h2 : (d.trip_type == TripType.TRANSFER
          && d.transfer_station_id == some sid
          && d.status == DemandStatus.inTransitLeg1) = true
      · rw [if_pos h2]
        apply ih
        · exact hsub'
        · exact hnd'
        · exact hpos'
        · exact hsum'
        · exact hcap'
      · rw [if_neg h2]
        by_cases h3 : (d.trip_type == TripType.TRANSFER
            && d.destination_station_id == sid
            && d.status == DemandStatus.inTransitLeg2) = true
        · rw [if_pos h3]
          apply ih
          · exact hsub'
          · exact hnd'
          · exact hpos'
          · exact hsum'
          · exact hcap'
        · rw [if_neg h3]
          apply ih
          · exact hrest
          · exact hnd
          · exact hpos
          · exact hsum
          · exact hcap

/-- The boarding loop (core.py:266-327) preserves the occupancy equality
and the capacity bound: the board branch appends the whole group and adds
min(available, count) = count to the counter, which stays within
capacity because min(available, count) ≤ available. -/
theorem boardStep_preserves (m : ℕ → Option SType) (arrT depT : ℚ) :
    ∀ (x : Train × Station × ℤ × Bool) (d : Demand),
      demandSum x.1.boarded_demand = x.1.current_passenger_count
        ∧ x.1.current_passenger_count ≤ x.1.capacity →
      demandSum (boardStep m arrT depT x d).1.boarded_demand
        = (boardStep m arrT depT x d).1.current_passenger_count
      ∧ (boardStep m arrT depT x d).1.current_passenger_count
        ≤ (boardStep m arrT depT x d).1.capacity := by
  rintro ⟨tr, st, b, flag⟩ d ⟨hsum, hcap⟩
  unfold boardStep
  dsimp only
  by_cases hstop : flag = true
  · rw [if_pos hstop]; exact ⟨hsum, hcap⟩
  · rw [if_neg hstop]
    by_cases hbc : boardCond m st tr depT d = true
    · rw [if_pos hbc]
      by_cases hav : tr.capacity - tr.current_passenger_count ≤ 0
      · rw [if_pos hav]; exact ⟨hsum, hcap⟩
      · rw [if_neg hav]
        by_cases hn : (0 : ℤ) < min (tr.capacity - tr.current_passenger_count)
            d.passenger_count
        · rw [if_pos hn]
          by_cases heq : (min (tr.capacity - tr.current_passenger_count)
              d.passenger_count == d.passenger_count) = true
          · rw [if_pos heq]
            dsimp only at hsum hcap
            refine ⟨?_, ?_⟩
            · dsimp only
              rw [demandSum_append, demandSum_cons, demandSum_nil,
                boardUpdate_passenger_count, hsum, beq_iff_eq.mp heq]
              omega
            · dsimp only
              have := min_le_left (tr.capacity - tr.current_passenger_count)
                d.passenger_count
              omega
          · rw [if_neg heq]; exact ⟨hsum, hcap⟩
        · rw [if_neg hn]; exact ⟨hsum, hcap⟩
    · rw [if_neg hbc]; exact ⟨hsum, hcap⟩

/-- C4: (i) both phases of a passenger exchange preserve "sum of the
boarded groups' counts = current_passenger_count ≤ capacity" (the alight
phase needs the boarded groups' ids distinct — true of the generated
demand — and their counts nonnegative); (ii) a fresh train starts with an
empty boarded list and a zero count (core.py:465-466), grounding the
invariant. -/
theorem C4_occupancy_invariant :
    (∀ (m : ℕ → Option SType) (tr : Train) (st : Station) (arrT depT : ℚ),
      (tr.boarded_demand.map Demand.did).Nodup →
      (∀ x ∈ tr.boarded_demand, 0 ≤ x.passenger_count) →
      demandSum tr.boarded_demand = tr.current_passenger_count →
      tr.current_passenger_count ≤ tr.capacity →
      demandSum (processPassengerExchange m tr st arrT depT).2.2.1.boarded_demand
        = (processPassengerExchange m tr st arrT depT).2.2.1.current_passenger_count
      ∧ (processPassengerExchange m tr st arrT depT).2.2.1.current_passenger_count
        ≤ (processPassengerExchange m tr st arrT depT).2.2.1.capacity)
    ∧ (∀ (tid : ℕ) (cap : ℤ) (v a dc : ℚ) (sv : SType) (cs : Option ℕ),
      (mkTrain tid cap v a dc sv cs).boarded_demand = []
      ∧ (mkTrain tid cap v a dc sv cs).current_passenger_count = 0) := by
  constructor
  · intro m tr st arrT depT hnd hpos hsum hcap
    unfold processPassengerExchange
    dsimp only
    have ha := alight_fold_ok st.station_id arrT tr.boarded_demand tr st 0
      (List.Sublist.refl _) hnd hpos hsum hcap
    have hb := foldl_preserve
      (fun x : Train × Station × ℤ × Bool =>
        demandSum x.1.boarded_demand = x.1.current_passenger_count
          ∧ x.1.current_passenger_count ≤ x.1.capacity)
      (boardStep m arrT depT)
      (boardStep_preserves m arrT depT)
      (tr.boarded_demand.foldl (alightStep st.station_id arrT)
        (tr, st, 0)).2.1.waiting_demand
      ((tr.boarded_demand.foldl (alightStep st.station_id arrT) (tr, st, 0)).1,
        (tr.boarded_demand.foldl (alightStep st.station_id arrT) (tr, st, 0)).2.1,
        0, false)
      ⟨ha.1, ha.2.1⟩
    exact hb
  · intro tid cap v a dc sv cs
    exact ⟨rfl, rfl⟩

/-- A boarded group of 4 headed for station 0 (it alights there). -/
def c4wDemand : Demand :=
  { did := 3
    origin_station_id := 1
    destination_station_id := 0
    arrival_time := 0
    passenger_count := 4
    trip_type := .DIRECT
    status := .inTransitLeg1
    train_id := some 1 }

/-- A capacity-10 train carrying the group of 4. -/
def c4wTrain : Train :=
  { mkTrain 1 10 72 1 1 .AB none with
      boarded_demand := [c4wDemand]
      current_passenger_count := 4 }

set_option maxRecDepth 4000 in
/-- Witness for C4: the exchange at station 0 (where the group of 4
alights and the waiting group of 15 is too large to board) keeps the
equality and the capacity bound, and a fresh train starts empty. -/
theorem C4_witness :
    (demandSum (processPassengerExchange (fun _ => some SType.AB)
          c4wTrain c3wStation 0 10).2.2.1.boarded_demand
        = (processPassengerExchange (fun _ => some SType.AB)
          c4wTrain c3wStation 0 10).2.2.1.current_passenger_count
      ∧ (processPassengerExchange (fun _ => some SType.AB)
          c4wTrain c3wStation 0 10).2.2.1.current_passenger_count
        ≤ (processPassengerExchange (fun _ => some SType.AB)
          c4wTrain c3wStation 0 10).2.2.1.capacity)
    ∧ ((mkTrain 2 10 72 1 1 .AB none).boarded_demand = []
      ∧ (mkTrain 2 10 72 1 1 .AB none).current_passenger_count = 0) :=
  ⟨C4_occupancy_invariant.1 (fun _ => some SType.AB) c4wTrain c3wStation 0 10
      (by with_unfolding_all decide) (by with_unfolding_all decide)
      (by with_unfolding_all decide) (by with_unfolding_all decide),
    C4_occupancy_invariant.2 2 10 72 1 1 .AB none⟩

end MRT3


namespace MRT3

/-! ### C5: event ordering -/

/-- Bool test that a list of times never decreases. -/
def nonDecreasing : List ℚ → Bool
  | [] => true
  | [_] => true
  | a :: b :: t => decide (a ≤ b) && nonDecreasing (b :: t)

/-- The main loop stalls immediately on an empty event queue. -/
theorem stepSim_nil_queue (s : SimState) (h : s.queue = []) :
    stepSim s = none := by
  unfold stepSim
  rw [h]
  split
  · rfl
  · rfl

/-- A run whose state has an empty event queue pops nothing. -/
theorem popTimes_nil_queue (n : ℕ) (s : SimState) (h : s.queue = []) :
    popTimes n s = [] := by
  cases n with
  | zero => rfl
  | succ m =>
    unfold popTimes
    rw [stepSim_nil_queue s h]

/-- The IndexError paths of initialization (core.py:1631 accesses
`self.trains[0]` for every scheme, core.py:1673 accesses
`self.trains[1]` for SKIP-STOP): a roster that is empty, or a singleton
under SKIP-STOP, aborts the scheme inside the `run()` except handler
(core.py:1830-1843) and the main loop pops no event at all. -/
theorem initSim_abort_no_events (cfg : Config) (n : ℕ)
    (h : ((initTrains cfg).length == 0
      || (!cfg.schemeRegular && decide ((initTrains cfg).length < 2)))
      = true) :
    popTimes n (initSim cfg) = [] := by
  apply popTimes_nil_queue
  show (initSim cfg).queue = []
  unfold initSim
  dsimp only
  rw [if_pos h]

set_option maxRecDepth 1000000 in
/-- Counterexample to C5: `cexSkipConfig` builds a valid two-train
SKIP-STOP roster (so the unconditional `self.trains[1]` access at
core.py:1673 succeeds and initialization completes), yet the times
popped by the main loop DECREASE at the 25th pop (22670 at pops 23-24,
then 22144): after train 1's turnaround at station 3 it enters segment
(3,2) from a standing start, and the passthrough branch of
`calculate_traversal_time` (core.py:424-434) returns a negative duration
((v0 - passthrough_speed)/decel_rate = (0 - 50/9)/0.01 is about -555.6 s
and nothing clamps the total), so its `segment_exit` is scheduled in the
past and `heapq` duly pops it after later events already processed. -/
theorem C5_counterexample :
    (initSim cexSkipConfig).trains.length = 2
    ∧ nonDecreasing (popTimes 25 (initSim cexSkipConfig)) = false := by
  with_unfolding_all decide

theorem qeq_iff_eq {a b : ℚ} : qeq a b = true ↔ a = b := by
  unfold qeq
  constructor
  · intro h
    obtain ⟨h1, h2⟩ := Bool.and_eq_true _ _ |>.mp h
    exact Rat.ext (beq_iff_eq.mp h1) (beq_iff_eq.mp h2)
  · rintro rfl
    simp

theorem keyLE_refl (a : Event) : a.keyLE a = true := by
  unfold Event.keyLE
  simp [qeq]

theorem keyLE_trans {a b c : Event} (h1 : a.keyLE b = true)
    (h2 : b.keyLE c = true) : a.keyLE c = true := by
  unfold Event.keyLE at h1 h2 ⊢
  simp only [Bool.or_eq_true, Bool.and_eq_true, decide_eq_true_eq,
    qeq_iff_eq] at h1 h2 ⊢
  rcases h1 with h1 | ⟨h1e, h1o⟩ <;> rcases h2 with h2 | ⟨h2e, h2o⟩
  · exact Or.inl (lt_trans h1 h2)
  · exact Or.inl (h2e ▸ h1)
  · exact Or.inl (h1e ▸ h2)
  · exact Or.inr ⟨h1e.trans h2e, le_trans h1o h2o⟩

theorem keyLE_total (a b : Event) :
    a.keyLE b = true ∨ b.keyLE a = true := by
  unfold Event.keyLE
  simp only [Bool.or_eq_true, Bool.and_eq_true, decide_eq_true_eq,
    qeq_iff_eq]
  rcases lt_trichotomy a.time b.time with h | h | h
  · exact Or.inl (Or.inl h)
  · rcases Nat.le_total (eventOrdinal a.etype) (eventOrdinal b.etype)
      with ho | ho
    · exact Or.inl (Or.inr ⟨h, ho⟩)
    · exact Or.inr (Or.inr ⟨h.symm, ho⟩)
  · exact Or.inr (Or.inl h)

theorem selectMin_eq_none : ∀ t : List Event, selectMin t = none → t = [] := by
  intro t
  cases t with
  | nil => intro _; rfl
  | cons b u =>
    intro h
    unfold selectMin at h
    cases hm : selectMin u with
    | none => rw [hm] at h; cases h
    | some p =>
      rw [hm] at h
      obtain ⟨m, rest⟩ := p
      dsimp only at h
      split at h <;> cases h

/-- The popped event is a queued event of minimal (time, ordinal) key. -/
theorem selectMin_is_min : ∀ (q : List Event) (p : Event × List Event),
    selectMin q = some p → p.1 ∈ q ∧ ∀ e ∈ q, p.1.keyLE e = true := by
  intro q
  induction q with
  | nil => intro p h; cases h
  | cons a t ih =>
    intro p h
    unfold selectMin at h
    cases hm : selectMin t with
    | none =>
      rw [hm] at h
      cases h
      rw [selectMin_eq_none t hm]
      exact ⟨List.mem_singleton_self a, by
        intro e he
        rw [List.mem_singleton.mp he]
        exact keyLE_refl a⟩
    | some q' =>
      rw [hm] at h
      obtain ⟨m, rest⟩ := q'
      obtain ⟨hmem, hmin⟩ := ih (m, rest) hm
      dsimp only at h
      by_cases hk : a.keyLE m = true
      · rw [if_pos hk] at h
        cases h
        refine ⟨List.mem_cons_self a t, ?_⟩
        intro e he
        rcases List.mem_cons.mp he with he | he
        · rw [he]; exact keyLE_refl a
        · exact keyLE_trans hk (hmin e he)
      · rw [if_neg hk] at h
        cases h
        refine ⟨List.mem_cons_of_mem a hmem, ?_⟩
        intro e he
        rcases List.mem_cons.mp he with he | he
        · rw [he]
          rcases keyLE_total a m with hh | hh
          · exact absurd hh hk
          · exact hh
        · exact hmin e he

/-- C5 amended: what survives of the ordering claim is the tie-break
discipline of the queue itself.  (i) The ordinal map of `Event.__lt__`
(core.py:524-532) is exactly service_period_change=0, train_departure=1,
segment_exit=2, train_arrival=3, turnaround=4, segment_enter=5,
train_insertion=6; (ii) every pop returns a queued event whose
(time, ordinal) key is ≤ every queued event's key — in particular, among
equal-time events one of minimal ordinal is popped — and the pop is a
function of the queue, hence deterministic on identical inputs.  The
non-decreasing-times half of the claim is false (see the
counterexample): a negative passthrough traversal schedules events in
the past. -/
theorem C5_amended_tie_break :
    (eventOrdinal .service_period_change = 0
      ∧ eventOrdinal .train_departure = 1
      ∧ eventOrdinal .segment_exit = 2
      ∧ eventOrdinal .train_arrival = 3
      ∧ eventOrdinal .turnaround = 4
      ∧ eventOrdinal .segment_enter = 5
      ∧ eventOrdinal .train_insertion = 6)
    ∧ ∀ (q : List Event) (p : Event × List Event),
        selectMin q = some p →
        p.1 ∈ q
        ∧ (∀ e ∈ q, p.1.keyLE e = true)
        ∧ (∀ e ∈ q, e.time = p.1.time →
            eventOrdinal p.1.etype ≤ eventOrdinal e.etype) := by
  refine ⟨⟨rfl, rfl, rfl, rfl, rfl, rfl, rfl⟩, ?_⟩
  intro q p h
  obtain ⟨hmem, hmin⟩ := selectMin_is_min q p h
  refine ⟨hmem, hmin, ?_⟩
  intro e he hte
  have hk := hmin e he
  unfold Event.keyLE at hk
  simp only [Bool.or_eq_true, Bool.and_eq_true, decide_eq_true_eq,
    qeq_iff_eq] at hk
  rcases hk with hk | ⟨_, hk⟩
  · exact absurd (hte ▸ hk) (lt_irrefl _)
  · exact hk

/-- Two equal-time events: the departure (ordinal 1) must beat the
arrival (ordinal 3). -/
def c5wArr : Event := evt 5 .train_arrival none none none

def c5wDep : Event := evt 5 .train_departure none none none

def c5wQueue : List Event := [c5wArr, c5wDep]

/-- Witness for the amended C5: on the concrete two-event queue the pop
returns the equal-time event of lower ordinal, the departure. -/
theorem C5_amended_witness :
    selectMin c5wQueue = some (c5wDep, [c5wArr])
    ∧ (c5wDep ∈ c5wQueue
      ∧ (∀ e ∈ c5wQueue, c5wDep.keyLE e = true)
      ∧ (∀ e ∈ c5wQueue, e.time = c5wDep.time →
          eventOrdinal c5wDep.etype ≤ eventOrdinal e.etype)) :=
  ⟨by with_unfolding_all decide,
    C5_amended_tie_break.2 c5wQueue (c5wDep, [c5wArr])
      (by with_unfolding_all decide)⟩

end MRT3

namespace MRT3

/-! ### C1: segment mutual exclusion -/

theorem enter_segment_id (seg : Segment) (tid : ℕ) (t : ℚ) :
    (seg.enter tid t).2.segment_id = seg.segment_id := by
  unfold Segment.enter
  split <;> rfl

theorem exit_segment_id (seg : Segment) (tid : ℕ) (t : ℚ) :
    (seg.exit tid t).2.segment_id = seg.segment_id := by
  unfold Segment.exit
  split <;> rfl

/-- After an arena write, a successful lookup either hits the written
entry (at its key) or reads the old arena unchanged. -/
theorem getSegment_set_cases (s : SimState) (w : Segment) (k : ℕ × ℕ)
    (sg' : Segment) (h : (s.setSegment w).getSegment k = some sg') :
    (k = w.segment_id ∧ sg' = w)
      ∨ (k ≠ w.segment_id ∧ s.getSegment k = some sg') := by
  by_cases hk : k = w.segment_id
  · left
    refine ⟨hk, ?_⟩
    subst hk
    rw [getSegment_setSegment] at h
    cases ho : s.getSegment w.segment_id with
    | none => rw [ho] at h; cases h
    | some x => rw [ho] at h; exact (Option.some.inj h).symm
  · right
    rw [getSegment_setSegment_ne s w k hk] at h
    exact ⟨hk, h⟩

/-- The deployment loop never touches the segment arena. -/
theorem segments_deployFold (spread : ℚ) (k : ℕ) :
    ∀ (l : List (ℕ × ℕ)) (s : SimState) (d m : ℚ),
      (deployFold spread k l s d m).segments = s.segments := by
  intro l
  induction l with
  | nil => intro s d m; rfl
  | cons p rest ih =>
    intro s d m
    obtain ⟨i, tid⟩ := p
    unfold deployFold
    cases h : s.getTrain tid with
    | none => exact (ih _ _ _).trans rfl
    | some t => exact (ih _ _ _).trans rfl

theorem segments_handleServicePeriodChange (e : Event) (s : SimState) :
    (handleServicePeriodChange e s).segments = s.segments := by
  unfold handleServicePeriodChange
  cases h : e.period.bind (fun i => s.periods.get? i) with
  | none => rfl
  | some period =>
    dsimp only
    split
    · exact segments_deployFold _ _ _ _ _ _
    · split <;> rfl

theorem segments_handleArrival (e : Event) (s : SimState) :
    (handleArrival e s).segments = s.segments := by
  unfold handleArrival
  repeat' split
  all_goals try dsimp only
  repeat' split
  all_goals rfl

theorem segments_handleDeparture (e : Event) (s : SimState) :
    (handleDeparture e s).segments = s.segments := by
  unfold handleDeparture
  repeat' split
  all_goals try dsimp only
  repeat' split
  all_goals rfl

theorem segments_handleTurnaround (e : Event) (s : SimState) :
    (handleTurnaround e s).segments = s.segments := by
  unfold handleTurnaround
  repeat' split
  all_goals try dsimp only
  repeat' split
  all_goals rfl

theorem enter_eq_of_free (seg : Segment) (tid : ℕ) (t : ℚ)
    (h : seg.occupied_by = none) :
    seg.enter tid t
      = (true, { seg with last_entry_time := some t,
                          occupied_by := some tid }) := by
  unfold Segment.enter
  rw [if_pos h]

theorem enter_eq_of_occupied (seg : Segment) (tid : ℕ) (t : ℚ)
    (h : seg.occupied_by ≠ none) :
    seg.enter tid t = (false, seg) := by
  unfold Segment.enter
  rw [if_neg h]

theorem exit_eq_of_owner (seg : Segment) (tid : ℕ) (t : ℚ)
    (h : seg.occupied_by = some tid) :
    seg.exit tid t
      = (true, { seg with last_exit_time := some t,
                          occupied_by := none }) := by
  unfold Segment.exit
  rw [if_pos h]

theorem exit_eq_of_other (seg : Segment) (tid : ℕ) (t : ℚ)
    (h : seg.occupied_by ≠ some tid) :
    seg.exit tid t = (false, seg) := by
  unfold Segment.exit
  rw [if_neg h]

theorem enter_success_occupied (seg : Segment) (tid : ℕ) (t : ℚ)
    (h : (seg.enter tid t).1 = true) : seg.occupied_by = none := by
  by_cases ho : seg.occupied_by = none
  · exact ho
  · rw [enter_eq_of_occupied seg tid t ho] at h
    cases h

theorem enter_snd_occupied_of_success (seg : Segment) (tid : ℕ) (t : ℚ)
    (h : (seg.enter tid t).1 = true) :
    (seg.enter tid t).2.occupied_by = some tid := by
  rw [enter_eq_of_free seg tid t (enter_success_occupied seg tid t h)]

/-- `_handle_insertion` changes a segment's occupant only through a
successful `enter` by the inserted train, which requires the segment to
have been free. -/
theorem trans_handleInsertion (e : Event) (s : SimState) (k : ℕ × ℕ)
    (sg sg' : Segment) (hsg : s.getSegment k = some sg)
    (h' : (handleInsertion e s).getSegment k = some sg') :
    sg'.occupied_by = sg.occupied_by
      ∨ (sg.occupied_by = none ∧ sg'.occupied_by = e.train) := by
  unfold handleInsertion at h'
  cases htr : e.train.bind s.getTrain with
  | none =>
    rw [htr] at h'
    dsimp only at h'
    rw [hsg] at h'
    exact Or.inl (congrArg Segment.occupied_by (Option.some.inj h')).symm
  | some tr =>
    rw [htr] at h'
    cases hseg : e.segment.bind s.getSegment with
    | none =>
      rw [hseg] at h'
      dsimp only at h'
      rw [hsg] at h'
      exact Or.inl (congrArg Segment.occupied_by (Option.some.inj h')).symm
    | some seg =>
      rw [hseg] at h'
      dsimp only at h'
      split at h'
      · have h2 : s.getSegment k = some sg' := h'
        rw [hsg] at h2
        exact Or.inl (congrArg Segment.occupied_by (Option.some.inj h2)).symm
      · split at h'
        · have h2 : s.getSegment k = some sg' := h'
          rw [hsg] at h2
          exact Or.inl (congrArg Segment.occupied_by (Option.some.inj h2)).symm
        · by_cases hres : (seg.enter tr.train_id e.time).1 = true
          · rw [if_pos hres] at h'
            rw [getSegment_scheduleEvent, getSegment_setTrain] at h'
            rcases getSegment_set_cases _ _ _ _ h' with ⟨hk, hw⟩ | ⟨_, hold⟩
            · rw [enter_segment_id] at hk
              obtain ⟨k0, hk0⟩ : ∃ k0, e.segment = some k0 := by
                cases hes : e.segment with
                | none => rw [hes] at hseg; cases hseg
                | some v => exact ⟨v, rfl⟩
              rw [hk0] at hseg
              simp only [Option.some_bind] at hseg
              have hks : s.getSegment k = some seg := by
                rw [hk, getSegment_id _ _ _ hseg]
                exact hseg
              have hseqsg : seg = sg := by
                rw [hks] at hsg
                exact Option.some.inj hsg
              obtain ⟨tid0, htid0⟩ : ∃ tid0, e.train = some tid0 := by
                cases het : e.train with
                | none => rw [het] at htr; cases htr
                | some v => exact ⟨v, rfl⟩
              rw [htid0] at htr
              simp only [Option.some_bind] at htr
              right
              refine ⟨?_, ?_⟩
              · rw [← hseqsg]
                exact enter_success_occupied _ _ _ hres
              · rw [hw, enter_snd_occupied_of_success _ _ _ hres, htid0,
                  getTrain_id _ _ _ htr]
            · rw [getSegment_setTrain] at hold
              rw [hsg] at hold
              exact Or.inl (congrArg Segment.occupied_by (Option.some.inj hold)).symm
          · rw [if_neg hres] at h'
            split at h'
            · have h2 : s.getSegment k = some sg' := h'
              rw [hsg] at h2
              exact Or.inl (congrArg Segment.occupied_by (Option.some.inj h2)).symm
            · have h2 : s.getSegment k = some sg' := h'
              rw [hsg] at h2
              exact Or.inl (congrArg Segment.occupied_by (Option.some.inj h2)).symm

/-- `_handle_segment_enter` changes a segment's occupant only through a
successful `enter` by the event's train (requiring the segment free);
the follow-up `next_available` write preserves the occupant, and the
failure path only reschedules. -/
theorem trans_handleSegmentEnter (e : Event) (s : SimState) (k : ℕ × ℕ)
    (sg sg' : Segment) (hsg : s.getSegment k = some sg)
    (h' : (handleSegmentEnter e s).getSegment k = some sg') :
    sg'.occupied_by = sg.occupied_by
      ∨ (sg.occupied_by = none ∧ sg'.occupied_by = e.train) := by
  unfold handleSegmentEnter at h'
  cases htr : e.train.bind s.getTrain with
  | none =>
    rw [htr] at h'
    dsimp only at h'
    rw [hsg] at h'
    exact Or.inl (congrArg Segment.occupied_by (Option.some.inj h')).symm
  | some tr =>
    rw [htr] at h'
    cases hseg : e.segment.bind s.getSegment with
    | none =>
      rw [hseg] at h'
      dsimp only at h'
      rw [hsg] at h'
      exact Or.inl (congrArg Segment.occupied_by (Option.some.inj h')).symm
    | some seg =>
      rw [hseg] at h'
      cases hst : e.station.bind s.getStation with
      | none =>
        rw [hst] at h'
        dsimp only at h'
        rw [hsg] at h'
        exact Or.inl (congrArg Segment.occupied_by (Option.some.inj h')).symm
      | some nextSt =>
        rw [hst] at h'
        dsimp only at h'
        obtain ⟨k0, hk0⟩ : ∃ k0, e.segment = some k0 := by
          cases hes : e.segment with
          | none => rw [hes] at hseg; cases hseg
          | some v => exact ⟨v, rfl⟩
        rw [hk0] at hseg
        simp only [Option.some_bind] at hseg
        have hSseg : s.getSegment seg.segment_id = some seg := by
          rw [getSegment_id _ _ _ hseg]
          exact hseg
        obtain ⟨tid0, htid0⟩ : ∃ tid0, e.train = some tid0 := by
          cases het : e.train with
          | none => rw [het] at htr; cases htr
          | some v => exact ⟨v, rfl⟩
        rw [htid0] at htr
        simp only [Option.some_bind] at htr
        by_cases hres : (seg.enter tr.train_id e.time).1 = true
        · rw [if_pos hres] at h'
          rw [getSegment_scheduleEvent, getSegment_setTrain] at h'
          have hs1at : (s.setSegment
                (seg.enter tr.train_id e.time).2).getSegment seg.segment_id
              = some (seg.enter tr.train_id e.time).2 := by
            have h0 := getSegment_setSegment s (seg.enter tr.train_id e.time).2
            rw [enter_segment_id] at h0
            rw [h0, hSseg]
            rfl
          have hseqsg : k = seg.segment_id → seg = sg := by
            intro hk
            have hx : s.getSegment k = some seg := by
              rw [hk]
              exact hSseg
            rw [hx] at hsg
            exact Option.some.inj hsg
          cases hcs : tr.current_station.bind
              ((s.setSegment (seg.enter tr.train_id e.time).2).getStation) with
          | some depSt =>
            rw [hcs] at h'
            dsimp only at h'
            cases hs3 : ((s.setSegment (seg.enter tr.train_id e.time).2).setStation
                (depSt.setPlatform tr.direction none)).getSegment seg.segment_id with
            | some sg2 =>
              rw [hs3] at h'
              dsimp only at h'
              rcases getSegment_set_cases _ _ _ _ h' with ⟨hk, hw⟩ | ⟨hne, hold⟩
              · have hk2 : k = sg2.segment_id := hk
                have hsg2id : sg2.segment_id = seg.segment_id :=
                  getSegment_id _ _ _ hs3
                have hx : (s.setSegment
                    (seg.enter tr.train_id e.time).2).getSegment seg.segment_id
                    = some sg2 := hs3
                have hsg2w : sg2 = (seg.enter tr.train_id e.time).2 := by
                  rw [hs1at] at hx
                  exact (Option.some.inj hx).symm
                right
                refine ⟨?_, ?_⟩
                · rw [← hseqsg (hk2.trans hsg2id)]
                  exact enter_success_occupied _ _ _ hres
                · have hocc : sg'.occupied_by = sg2.occupied_by := by
                    rw [hw]
                  rw [hocc, hsg2w,
                    enter_snd_occupied_of_success _ _ _ hres,
                    getTrain_id _ _ _ htr, htid0]
              · have hne2 : k ≠ seg.segment_id := by
                  intro hc
                  exact hne (hc.trans (getSegment_id _ _ _ hs3).symm)
                have hold2 : (s.setSegment
                    (seg.enter tr.train_id e.time).2).getSegment k
                    = some sg' := hold
                have hwne : k ≠ (seg.enter tr.train_id e.time).2.segment_id := by
                  rw [enter_segment_id]
                  exact hne2
                rw [getSegment_setSegment_ne s _ k hwne, hsg] at hold2
                exact Or.inl
                  (congrArg Segment.occupied_by (Option.some.inj hold2)).symm
            | none =>
              rw [hs3] at h'
              dsimp only at h'
              have h2 : (s.setSegment
                  (seg.enter tr.train_id e.time).2).getSegment k = some sg' := h'
              by_cases hk : k = seg.segment_id
              · rw [hk, hs1at] at h2
                right
                refine ⟨?_, ?_⟩
                · rw [← hseqsg hk]
                  exact enter_success_occupied _ _ _ hres
                · rw [← Option.some.inj h2,
                    enter_snd_occupied_of_success _ _ _ hres,
                    getTrain_id _ _ _ htr, htid0]
              · have hwne : k ≠ (seg.enter tr.train_id e.time).2.segment_id := by
                  rw [enter_segment_id]
                  exact hk
                rw [getSegment_setSegment_ne s _ k hwne, hsg] at h2
                exact Or.inl
                  (congrArg Segment.occupied_by (Option.some.inj h2)).symm
          | none =>
            rw [hcs] at h'
            dsimp only at h'
            cases hs3 : (s.setSegment
                (seg.enter tr.train_id e.time).2).getSegment seg.segment_id with
            | some sg2 =>
              rw [hs3] at h'
              dsimp only at h'
              rcases getSegment_set_cases _ _ _ _ h' with ⟨hk, hw⟩ | ⟨hne, hold⟩
              · have hk2 : k = sg2.segment_id := hk
                have hsg2id : sg2.segment_id = seg.segment_id :=
                  getSegment_id _ _ _ hs3
                have hx := hs3
                have hsg2w : sg2 = (seg.enter tr.train_id e.time).2 := by
                  rw [hs1at] at hx
                  exact (Option.some.inj hx).symm
                right
                refine ⟨?_, ?_⟩
                · rw [← hseqsg (hk2.trans hsg2id)]
                  exact enter_success_occupied _ _ _ hres
                · have hocc : sg'.occupied_by = sg2.occupied_by := by
                    rw [hw]
                  rw [hocc, hsg2w,
                    enter_snd_occupied_of_success _ _ _ hres,
                    getTrain_id _ _ _ htr, htid0]
              · have hne2 : k ≠ seg.segment_id := by
                  intro hc
                  exact hne (hc.trans (getSegment_id _ _ _ hs3).symm)
                have hwne : k ≠ (seg.enter tr.train_id e.time).2.segment_id := by
                  rw [enter_segment_id]
                  exact hne2
                rw [getSegment_setSegment_ne s _ k hwne, hsg] at hold
                exact Or.inl
                  (congrArg Segment.occupied_by (Option.some.inj hold)).symm
            | none =>
              rw [hs3] at h'
              dsimp only at h'
              by_cases hk : k = seg.segment_id
              · rw [hk, hs1at] at h'
                right
                refine ⟨?_, ?_⟩
                · rw [← hseqsg hk]
                  exact enter_success_occupied _ _ _ hres
                · rw [← Option.some.inj h',
                    enter_snd_occupied_of_success _ _ _ hres,
                    getTrain_id _ _ _ htr, htid0]
              · have hwne : k ≠ (seg.enter tr.train_id e.time).2.segment_id := by
                  rw [enter_segment_id]
                  exact hk
                rw [getSegment_setSegment_ne s _ k hwne, hsg] at h'
                exact Or.inl
                  (congrArg Segment.occupied_by (Option.some.inj h')).symm
        · rw [if_neg hres] at h'
          split at h'
          · have h2 : s.getSegment k = some sg' := h'
            rw [hsg] at h2
            exact Or.inl (congrArg Segment.occupied_by (Option.some.inj h2)).symm
          · have h2 : s.getSegment k = some sg' := h'
            rw [hsg] at h2
            exact Or.inl (congrArg Segment.occupied_by (Option.some.inj h2)).symm

/-- `_handle_segment_exit` either leaves a segment's occupant alone or
clears it (`TrackSegment.exit`, core.py:380-386, fires only for the
occupying train). -/
theorem trans_handleSegmentExit (e : Event) (s : SimState) (k : ℕ × ℕ)
    (sg sg' : Segment) (hsg : s.getSegment k = some sg)
    (h' : (handleSegmentExit e s).getSegment k = some sg') :
    sg'.occupied_by = sg.occupied_by ∨ sg'.occupied_by = none := by
  unfold handleSegmentExit at h'
  cases htr : e.train.bind s.getTrain with
  | none =>
    rw [htr] at h'
    dsimp only at h'
    rw [hsg] at h'
    exact Or.inl (congrArg Segment.occupied_by (Option.some.inj h')).symm
  | some tr =>
    rw [htr] at h'
    cases hseg : e.segment.bind s.getSegment with
    | none =>
      rw [hseg] at h'
      dsimp only at h'
      rw [hsg] at h'
      exact Or.inl (congrArg Segment.occupied_by (Option.some.inj h')).symm
    | some seg =>
      rw [hseg] at h'
      dsimp only at h'
      rw [getSegment_scheduleEvent] at h'
      rcases getSegment_set_cases _ _ _ _ h' with ⟨hk, hw⟩ | ⟨_, hold⟩
      · rw [exit_segment_id] at hk
        obtain ⟨k0, hk0⟩ : ∃ k0, e.segment = some k0 := by
          cases hes : e.segment with
          | none => rw [hes] at hseg; cases hseg
          | some v => exact ⟨v, rfl⟩
        rw [hk0] at hseg
        simp only [Option.some_bind] at hseg
        have hk0id : seg.segment_id = k0 := getSegment_id _ _ _ hseg
        have hks : s.getSegment k = some seg := by
          rw [hk, hk0id]
          exact hseg
        have hseqsg : seg = sg := by
          rw [hks] at hsg
          exact Option.some.inj hsg
        unfold Segment.exit at hw
        by_cases hocc : seg.occupied_by = some tr.train_id
        · rw [if_pos hocc] at hw
          right
          rw [hw]
        · rw [if_neg hocc] at hw
          left
          rw [hw, hseqsg]
      · rw [hsg] at hold
        exact Or.inl (congrArg Segment.occupied_by (Option.some.inj hold)).symm

/-- Scenario fixtures for the C1 witness: a two-station line whose only
segment is held by train 1. -/
def c1wSt1 : Station :=
  { station_id := 1
    track_south := some (1, 2) }

def c1wSt2 : Station :=
  { station_id := 2 }

def c1wSegFree : Segment :=
  { segment_id := (1, 2)
    start_station_id := 1
    end_station_id := 2
    distance := 1000
    direction := .southbound }

def c1wSegOcc : Segment := { c1wSegFree with occupied_by := some 1 }

def c1wTrain1 : Train := mkTrain 1 100 72 1 1 .AB (some 1)

def c1wTrain2 : Train := mkTrain 2 100 72 1 1 .AB (some 1)

def c1wState : SimState :=
  { stations := [c1wSt1, c1wSt2]
    segments := [c1wSegOcc]
    trains := [c1wTrain1, c1wTrain2]
    queue := []
    active_trains := []
    active_headway := 3
    trains_to_withdraw := 0
    current_time := 0
    dwell_time := 30
    turnaround_time := 60
    end_time := 100000
    scheme_regular := true
    periods := []
    timetables := [] }

def c1wExitEvent : Event := evt 10 .segment_exit (some 1) (some 2) (some (1, 2))

def c1wEnterEvent : Event := evt 10 .segment_enter (some 2) (some 2) (some (1, 2))

def c1wExitResult : Segment :=
  { c1wSegOcc with
      last_exit_time := some 10
      occupied_by := none }

/-- C1: segment mutual exclusion.  (i) `TrackSegment.enter`
(core.py:372-378) admits a train only when `occupied_by` is `None` and
returns False leaving the segment unchanged otherwise; (ii)
`TrackSegment.exit` (core.py:380-386) clears `occupied_by` only when
called by the occupying train; (iii) processing any event changes each
segment's occupant only by keeping it, clearing it, or - when the
segment was free - setting it to the processed event's train, so a
segment never passes from one train to another without being freed in
between and never holds two trains; (iv) when `_handle_segment_enter`
finds the segment taken, it leaves every segment untouched and only
appends one rescheduled `segment_enter` for the same train, station and
segment (core.py:1264-1302). -/
theorem C1_segment_mutual_exclusion :
    (∀ (seg : Segment) (tid : ℕ) (t : ℚ),
      (seg.occupied_by = none →
        seg.enter tid t = (true, { seg with last_entry_time := some t,
                                            occupied_by := some tid }))
      ∧ (seg.occupied_by ≠ none → seg.enter tid t = (false, seg)))
    ∧ (∀ (seg : Segment) (tid : ℕ) (t : ℚ),
      (seg.occupied_by = some tid →
        seg.exit tid t = (true, { seg with last_exit_time := some t,
                                           occupied_by := none }))
      ∧ (seg.occupied_by ≠ some tid → seg.exit tid t = (false, seg)))
    ∧ (∀ (e : Event) (s : SimState) (k : ℕ × ℕ) (sg sg' : Segment),
        s.getSegment k = some sg →
        (processEvent e s).getSegment k = some sg' →
        sg'.occupied_by = sg.occupied_by ∨ sg'.occupied_by = none
          ∨ (sg.occupied_by = none ∧ sg'.occupied_by = e.train))
    ∧ (∀ (e : Event) (s : SimState) (tr : Train) (seg : Segment)
        (nextSt : Station),
        e.train.bind s.getTrain = some tr →
        e.segment.bind s.getSegment = some seg →
        e.station.bind s.getStation = some nextSt →
        seg.occupied_by ≠ none →
        (handleSegmentEnter e s).segments = s.segments
        ∧ ∃ t', (handleSegmentEnter e s).queue
            = s.queue ++ [evt t' .segment_enter (some tr.train_id)
                (some nextSt.station_id) (some seg.segment_id)]) := by
  refine ⟨?_, ?_, ?_, ?_⟩
  · intro seg tid t
    exact ⟨enter_eq_of_free seg tid t, enter_eq_of_occupied seg tid t⟩
  · intro seg tid t
    exact ⟨exit_eq_of_owner seg tid t, exit_eq_of_other seg tid t⟩
  · intro e s k sg sg' hsg h'
    unfold processEvent at h'
    cases he : e.etype
    case train_arrival =>
      rw [he] at h'
      have h2 : (handleArrival e s).getSegment k = some sg' := h'
      have h3 : (handleArrival e s).getSegment k = s.getSegment k := by
        unfold SimState.getSegment
        rw [segments_handleArrival]
      rw [h3, hsg] at h2
      exact Or.inl (congrArg Segment.occupied_by (Option.some.inj h2)).symm
    case train_departure =>
      rw [he] at h'
      have h2 : (handleDeparture e s).getSegment k = some sg' := h'
      have h3 : (handleDeparture e s).getSegment k = s.getSegment k := by
        unfold SimState.getSegment
        rw [segments_handleDeparture]
      rw [h3, hsg] at h2
      exact Or.inl (congrArg Segment.occupied_by (Option.some.inj h2)).symm
    case turnaround =>
      rw [he] at h'
      have h2 : (handleTurnaround e s).getSegment k = some sg' := h'
      have h3 : (handleTurnaround e s).getSegment k = s.getSegment k := by
        unfold SimState.getSegment
        rw [segments_handleTurnaround]
      rw [h3, hsg] at h2
      exact Or.inl (congrArg Segment.occupied_by (Option.some.inj h2)).symm
    case service_period_change =>
      rw [he] at h'
      have h2 : (handleServicePeriodChange e s).getSegment k = some sg' := h'
      have h3 : (handleServicePeriodChange e s).getSegment k
          = s.getSegment k := by
        unfold SimState.getSegment
        rw [segments_handleServicePeriodChange]
      rw [h3, hsg] at h2
      exact Or.inl (congrArg Segment.occupied_by (Option.some.inj h2)).symm
    case segment_exit =>
      rw [he] at h'
      rcases trans_handleSegmentExit e s k sg sg' hsg h' with h | h
      · exact Or.inl h
      · exact Or.inr (Or.inl h)
    case segment_enter =>
      rw [he] at h'
      rcases trans_handleSegmentEnter e s k sg sg' hsg h' with h | h
      · exact Or.inl h
      · exact Or.inr (Or.inr h)
    case train_insertion =>
      rw [he] at h'
      rcases trans_handleInsertion e s k sg sg' hsg h' with h | h
      · exact Or.inl h
      · exact Or.inr (Or.inr h)
  · intro e s tr seg nextSt hTr hSeg hSt hocc
    unfold handleSegmentEnter
    rw [hTr, hSeg, hSt]
    dsimp only
    have hres : ¬ ((seg.enter tr.train_id e.time).1 = true) := by
      rw [enter_eq_of_occupied seg tr.train_id e.time hocc]
      simp
    rw [if_neg hres]
    split
    · exact ⟨rfl, _, rfl⟩
    · exact ⟨rfl, _, rfl⟩

set_option maxRecDepth 40000 in
/-- Witness for C1 on the two-station fixture: the free segment admits
train 1, the occupied one rejects train 2, the occupant's exit frees it,
a stranger's exit does not, processing the exit event performs a legal
occupancy transition, and train 2's blocked `segment_enter` is
rescheduled with no segment change. -/
theorem C1_witness :
    (c1wSegFree.enter 1 10
      = (true, { c1wSegFree with last_entry_time := some 10,
                                 occupied_by := some 1 }))
    ∧ (c1wSegOcc.enter 2 10 = (false, c1wSegOcc))
    ∧ (c1wSegOcc.exit 1 10
      = (true, { c1wSegOcc with last_exit_time := some 10,
                                occupied_by := none }))
    ∧ (c1wSegOcc.exit 2 10 = (false, c1wSegOcc))
    ∧ (c1wExitResult.occupied_by = c1wSegOcc.occupied_by
        ∨ c1wExitResult.occupied_by = none
        ∨ (c1wSegOcc.occupied_by = none
            ∧ c1wExitResult.occupied_by = c1wExitEvent.train))
    ∧ ((handleSegmentEnter c1wEnterEvent c1wState).segments
          = c1wState.segments
        ∧ ∃ t', (handleSegmentEnter c1wEnterEvent c1wState).queue
            = c1wState.queue ++ [evt t' .segment_enter (some 2) (some 2)
                (some (1, 2))]) :=
  ⟨(C1_segment_mutual_exclusion.1 c1wSegFree 1 10).1
      (by with_unfolding_all decide),
    (C1_segment_mutual_exclusion.1 c1wSegOcc 2 10).2
      (by with_unfolding_all decide),
    (C1_segment_mutual_exclusion.2.1 c1wSegOcc 1 10).1
      (by with_unfolding_all decide),
    (C1_segment_mutual_exclusion.2.1 c1wSegOcc 2 10).2
      (by with_unfolding_all decide),
    C1_segment_mutual_exclusion.2.2.1 c1wExitEvent c1wState (1, 2)
      c1wSegOcc c1wExitResult
      (by with_unfolding_all decide) (by with_unfolding_all decide),
    C1_segment_mutual_exclusion.2.2.2 c1wEnterEvent c1wState
      c1wTrain2 c1wSegOcc c1wSt2
      (by with_unfolding_all decide) (by with_unfolding_all decide)
      (by with_unfolding_all decide) (by with_unfolding_all decide)⟩

end MRT3
